import Mathlib

/-!
# px4_pos_controller: mode arbitration and reference synthesis

A shallow embedding of the main loop of `src/px4_pos_controller.cpp`.

* Every `float`/`double` quantity is a rational number: comparisons and
  arithmetic are exact, rounding and NaN are outside the model.
* The process-wide variables of the source are the fields of `State`; one
  iteration of `while(ros::ok())` is the function `cycle`.
* What arrives from outside during an iteration (messages handled by
  `ros::spinOnce`, the state from the estimator, the clock) is an `Input`.
* Collaborators whose code lives in other files (`pos_controller_*`,
  `px4_command_utils`, `Circle_Trajectory`) are the fields of `Ext`.
* Calls that leave the process (service calls, setpoints, publications) are
  appended to logs kept in `State`, newest first.
-/

namespace Px4PosController

/-! ## Data model -/

/-- Three numbers indexed `[0]`, `[1]`, `[2]` in the source. -/
structure Vec3 where
  c0 : ℚ
  c1 : ℚ
  c2 : ℚ
deriving DecidableEq

/-- The enumerators of `command_to_mavros` used as `case` labels of the
switch in `main`, in the order of the switch; `Idle` is the zero value of the
field (line 187: the default setting is Idle).  `Unlisted` stands for any
value of the integer field `Mode` that is none of them (the switch has no
`default`). -/
inductive Mode where
  | Idle
  | Takeoff
  | Move_ENU
  | Move_Body
  | Hold
  | Land
  | Disarm
  | Failsafe_land
  | Trajectory_Tracking
  | Unlisted
deriving DecidableEq

/-- Modelled from the spec: the enumerator `command_to_mavros::XYZ_POS`, whose
declaration is in `command_to_mavros.h`.  The sub-mode is a pair of bits
(bit `0b10`: XY velocity, bit `0b01`: Z velocity); position tracking on both
axis groups is the value with both bits clear. -/
def XYZ_POS : Nat := 0

/-- The message part `Reference_State`. -/
structure ReferenceState where
  Sub_mode : Nat
  position_ref : Vec3
  velocity_ref : Vec3
  acceleration_ref : Vec3
  yaw_ref : ℚ
deriving DecidableEq

/-- The message `px4_command::ControlCommand`. -/
structure ControlCommand where
  Mode : Mode
  Command_ID : Nat
  Reference_State : ReferenceState
deriving DecidableEq

/-- The fields of `px4_command::DroneState` that `main` reads or writes. -/
structure DroneState where
  stamp : ℚ
  time_from_start : ℚ
  mode : String
  armed : Bool
  position : Vec3
  velocity : Vec3
  attitude : Vec3
deriving DecidableEq

/-- The message `px4_command::AttitudeReference`: `thrust_sp`, which `main`
overwrites, and the remaining numeric fields filled by `thrustToAttitude`. -/
structure AttitudeReference where
  thrust_sp : Vec3
  others : List ℚ
deriving DecidableEq

/-- One invocation of a position-control law: which law, and its arguments. -/
structure CtrlCall where
  law : Int
  state : DroneState
  ref : ReferenceState
  dt : ℚ
deriving DecidableEq

/-- A service call made through `_command_to_mavros`. -/
inductive Request where
  | set_mode (custom_mode : String)
  | arming (value : Bool)
deriving DecidableEq

/-- A setpoint handed to `_command_to_mavros`. -/
inductive Setpoint where
  | idle
  | accel (accel_sp : Vec3) (yaw_ref : ℚ)
  | attitude (att : AttitudeReference)
deriving DecidableEq

/-- Values fixed before the loop starts: ROS parameters and the answer to
the controller prompt. -/
structure Params where
  Takeoff_height : ℚ
  Disarm_height : ℚ
  Use_mocap_raw : ℚ
  Use_accel : ℚ
  geo_fence_x : ℚ × ℚ
  geo_fence_y : ℚ × ℚ
  geo_fence_z : ℚ × ℚ
  switch_ude : Int

/-- Collaborators defined outside `px4_pos_controller.cpp`.  A control law may
keep memory between calls, so its result is a function of the calls made so
far (newest first) as well as of its arguments. -/
structure Ext where
  /-- The method `pos_controller` of the five control-law classes, by law number 0..4. -/
  pos_controller : Int → List CtrlCall → DroneState → ReferenceState → ℚ → Vec3
  /-- The function `px4_command_utils::thrustToAttitude`. -/
  thrustToAttitude : Vec3 → ℚ → AttitudeReference
  /-- The function `px4_command_utils::rotation_yaw`, returning the output pair. -/
  rotation_yaw : ℚ → ℚ × ℚ → ℚ × ℚ
  /-- The method `_Circle_Trajectory.Circle_trajectory_generation`. -/
  Circle_trajectory_generation : ℚ → ReferenceState
  /-- The member `_Circle_Trajectory.time_total`. -/
  time_total : ℚ

/-- The variables that survive from one iteration of the loop to the next,
and the logs of outbound calls. -/
structure State where
  Command_Now : ControlCommand
  Command_Last : ControlCommand
  Command_to_gs : ControlCommand
  _DroneState : DroneState
  _AttitudeReference : AttitudeReference
  accel_sp : Vec3
  Takeoff_position : Vec3
  pos_drone_mocap : Vec3
  time_trajectory : ℚ
  last_time : ℚ
  dt : ℚ
  /-- Invocations of the position-control laws, newest first. -/
  ctrl_calls : List CtrlCall
  /-- Service calls, newest first. -/
  requests : List Request
  /-- Setpoints sent to the flight stack, newest first. -/
  sent : List Setpoint
  /-- Messages published on `/px4_command/attitude_reference`. -/
  att_ref_pub : List AttitudeReference
  /-- Messages published on `/px4_command/control_command_to_gs`. -/
  to_gs_pub : List ControlCommand
deriving DecidableEq

/-- What one iteration receives from outside. -/
structure Input where
  /-- Control commands delivered by this `spinOnce`, oldest first. -/
  commands : List ControlCommand
  /-- Motion-capture positions delivered by this `spinOnce`, oldest first. -/
  poses : List Vec3
  /-- The value of `_state_from_mavros._DroneState` after this `spinOnce`. -/
  mavros_state : DroneState
  /-- The value of `px4_command_utils::get_time_in_sec(begin_time)`. -/
  cur_time : ℚ
  /-- The value of `ros::Time::now()` at the state refresh. -/
  now : ℚ

/-! ## Callbacks and helpers -/

def zeroVec : Vec3 := ⟨0, 0, 0⟩

/-- A zero-initialised `Reference_State`. -/
def zeroRef : ReferenceState := ⟨0, zeroVec, zeroVec, zeroVec, 0⟩

/-- A default-constructed `ControlCommand`: every field zero. -/
def zeroCommand : ControlCommand := ⟨Mode.Idle, 0, zeroRef⟩

/-- A default-constructed `DroneState`. -/
def zeroDroneState : DroneState := ⟨0, 0, "", false, zeroVec, zeroVec, zeroVec⟩

def Command_cb (s : State) (msg : ControlCommand) : State :=
  { s with Command_Now := msg }

def optitrack_cb (s : State) (p : Vec3) : State :=
  { s with pos_drone_mocap := ⟨-p.c0, p.c2, p.c1⟩ }

/-- Modelled from the spec: `constrain_function2` of `px4_command_utils`,
the clamp of its first argument to the interval given by the other two. -/
def constrain_function2 (data Min Max : ℚ) : ℚ :=
  if data > Max then Max else if data < Min then Min else data

def check_failsafe (P : Params) (s : State) : Int :=
  if s._DroneState.position.c0 < P.geo_fence_x.1 ∨ s._DroneState.position.c0 > P.geo_fence_x.2 ∨
     s._DroneState.position.c1 < P.geo_fence_y.1 ∨ s._DroneState.position.c1 > P.geo_fence_y.2 ∨
     s._DroneState.position.c2 < P.geo_fence_z.1 ∨ s._DroneState.position.c2 > P.geo_fence_z.2
  then 1
  else 0

/-! ## The loop body -/

/-- The call `ros::spinOnce()`: every queued message goes through its callback. -/
def spinOnce (s : State) (i : Input) : State :=
  i.poses.foldl optitrack_cb (i.commands.foldl Command_cb s)

/-- Lines 213-217: the time step of this iteration. -/
def update_dt (s : State) (i : Input) : State :=
  { s with dt := constrain_function2 (i.cur_time - s.last_time) 0.01 0.03,
           last_time := i.cur_time }

/-- Lines 219-223: a recorded Land masks the command slot. -/
def land_latch (s : State) : State :=
  if s.Command_Last.Mode = Mode.Land then
    { s with Command_Now := { s.Command_Now with Mode := Mode.Land } }
  else s

/-- Lines 225-229: a geofence failure forces Land. -/
def failsafe_override (P : Params) (s : State) : State :=
  if check_failsafe P s = 1 then
    { s with Command_Now := { s.Command_Now with Mode := Mode.Land } }
  else s

/-- Lines 231-242: `_DroneState` is refreshed from the estimator. -/
def refresh_state (P : Params) (s : State) (i : Input) : State :=
  let d : DroneState := { i.mavros_state with stamp := i.now, time_from_start := i.cur_time }
  if P.Use_mocap_raw = 1 then
    { s with _DroneState := { d with position := s.pos_drone_mocap } }
  else
    { s with _DroneState := d }

/-- The state on which `switch (Command_Now.Mode)` is executed. -/
def before_switch (P : Params) (s : State) (i : Input) : State :=
  refresh_state P (failsafe_override P (land_latch (update_dt (spinOnce s i) i))) i

/-- One control law is invoked and its result stored in `accel_sp`. -/
def invoke_law (E : Ext) (k : Int) (s : State) : State :=
  { s with
    accel_sp := E.pos_controller k s.ctrl_calls s._DroneState s.Command_to_gs.Reference_State s.dt,
    ctrl_calls := ⟨k, s._DroneState, s.Command_to_gs.Reference_State, s.dt⟩ :: s.ctrl_calls }

/-- The chain `if(switch_ude == 0) ... else if(switch_ude == 4) ...`, which has
no final `else`. -/
def select_law (P : Params) (E : Ext) (s : State) : State :=
  if P.switch_ude = 0 then invoke_law E 0 s
  else if P.switch_ude = 1 then invoke_law E 1 s
  else if P.switch_ude = 2 then invoke_law E 2 s
  else if P.switch_ude = 3 then invoke_law E 3 s
  else if P.switch_ude = 4 then invoke_law E 4 s
  else s

/-- The attitude reference is rebuilt from `accel_sp` and a setpoint is sent. -/
def send_setpoint (P : Params) (E : Ext) (s : State) : State :=
  let att : AttitudeReference :=
    { E.thrustToAttitude s.accel_sp s.Command_to_gs.Reference_State.yaw_ref with
      thrust_sp := s.accel_sp }
  if P.Use_accel > 0.5 then
    { s with _AttitudeReference := att,
             sent := Setpoint.accel s.accel_sp s.Command_to_gs.Reference_State.yaw_ref :: s.sent }
  else
    { s with _AttitudeReference := att, sent := Setpoint.attitude att :: s.sent }

/-- The block shared by every tracking mode: control law, attitude mapping,
setpoint. -/
def track (P : Params) (E : Ext) (s : State) : State :=
  send_setpoint P E (select_law P E s)

/-- The two assignments that open most cases of the switch. -/
def copy_header (s : State) : State :=
  { s with Command_to_gs :=
      { s.Command_to_gs with Mode := s.Command_Now.Mode, Command_ID := s.Command_Now.Command_ID } }

def set_ref (s : State) (r : ReferenceState) : State :=
  { s with Command_to_gs := { s.Command_to_gs with Reference_State := r } }

/-- Lines 255-265: the reference written by `case Takeoff`. -/
def takeoff_ref (P : Params) (s : State) : ReferenceState :=
  { Sub_mode := XYZ_POS,
    position_ref := ⟨s.Takeoff_position.c0, s.Takeoff_position.c1,
                     s.Takeoff_position.c2 + P.Takeoff_height⟩,
    velocity_ref := ⟨0, 0, 0⟩,
    acceleration_ref := ⟨0, 0, 0⟩,
    yaw_ref := s._DroneState.attitude.c2 }

/-- Lines 432-442: the reference written on entry to Hold. -/
def hold_ref (s : State) : ReferenceState :=
  { Sub_mode := XYZ_POS,
    position_ref := ⟨s._DroneState.position.c0, s._DroneState.position.c1,
                     s._DroneState.position.c2⟩,
    velocity_ref := ⟨0, 0, 0⟩,
    acceleration_ref := ⟨0, 0, 0⟩,
    yaw_ref := s._DroneState.attitude.c2 }

/-- Lines 482-492: the reference written on entry to Land. -/
def land_ref (s : State) : ReferenceState :=
  { Sub_mode := XYZ_POS,
    position_ref := ⟨s._DroneState.position.c0, s._DroneState.position.c1,
                     s.Takeoff_position.c2⟩,
    velocity_ref := ⟨0, 0, 0⟩,
    acceleration_ref := ⟨0, 0, 0⟩,
    yaw_ref := s._DroneState.attitude.c2 }

/-- Lines 343-367 of `case Move_Body`: the XY group. -/
def move_body_xy (E : Ext) (s : State) (r : ReferenceState) : ReferenceState :=
  let cmd := s.Command_Now.Reference_State
  if cmd.Sub_mode &&& 0b10 ≠ 0 then
    let d_vel_enu := E.rotation_yaw s._DroneState.attitude.c2 (cmd.velocity_ref.c0, cmd.velocity_ref.c1)
    { r with position_ref := { r.position_ref with c0 := 0, c1 := 0 },
             velocity_ref := { r.velocity_ref with c0 := d_vel_enu.1, c1 := d_vel_enu.2 } }
  else
    let d_pos_enu := E.rotation_yaw s._DroneState.attitude.c2 (cmd.position_ref.c0, cmd.position_ref.c1)
    { r with position_ref := { r.position_ref with c0 := s._DroneState.position.c0 + d_pos_enu.1,
                                                   c1 := s._DroneState.position.c1 + d_pos_enu.2 },
             velocity_ref := { r.velocity_ref with c0 := 0, c1 := 0 } }

/-- Lines 369-379 of `case Move_Body`: the Z group.  The second block is a
plain compound statement, not an `else`, so it runs after the `if`. -/
def move_body_z (s : State) (r : ReferenceState) : ReferenceState :=
  let cmd := s.Command_Now.Reference_State
  let r1 : ReferenceState :=
    if cmd.Sub_mode &&& 0b01 ≠ 0 then
      { r with position_ref := { r.position_ref with c2 := 0 },
               velocity_ref := { r.velocity_ref with c2 := cmd.velocity_ref.c2 } }
    else r
  { r1 with position_ref := { r1.position_ref with c2 := s._DroneState.position.c2 + cmd.position_ref.c2 },
            velocity_ref := { r1.velocity_ref with c2 := 0 } }

/-- Lines 381-389 of `case Move_Body`: yaw and acceleration. -/
def move_body_yaw_acc (E : Ext) (s : State) (r : ReferenceState) : ReferenceState :=
  let cmd := s.Command_Now.Reference_State
  let d_acc_enu := E.rotation_yaw s._DroneState.attitude.c2
    (cmd.acceleration_ref.c0, cmd.acceleration_ref.c1)
  { r with yaw_ref := s._DroneState.attitude.c2 + cmd.yaw_ref,
           acceleration_ref := ⟨d_acc_enu.1, d_acc_enu.2, cmd.acceleration_ref.c2⟩ }

/-- Lines 341-391: the body-to-ENU conversion, entered only when the command
identifier has grown. -/
def move_body_ref (E : Ext) (s : State) : ReferenceState :=
  if s.Command_Now.Command_ID > s.Command_Last.Command_ID then
    move_body_yaw_acc E s (move_body_z s (move_body_xy E s s.Command_to_gs.Reference_State))
  else s.Command_to_gs.Reference_State

/-- Lines 498-509 and 556-567: leave offboard mode and disarm. -/
def disarm_requests (s : State) : State :=
  let s1 : State :=
    if s._DroneState.mode = "OFFBOARD" then
      { s with requests := Request.set_mode "MANUAL" :: s.requests }
    else s
  if s1._DroneState.armed then
    { s1 with requests := Request.arming false :: s1.requests }
  else s1

/-- Lines 430-443: the reference is rewritten when Hold is entered. -/
def hold_entry (s : State) : State :=
  if s.Command_Last.Mode ≠ Mode.Hold then set_ref s (hold_ref s) else s

/-- Lines 480-493: the reference is rewritten when Land is entered. -/
def land_entry (s : State) : State :=
  if s.Command_Last.Mode ≠ Mode.Land then set_ref s (land_ref s) else s

/-- Lines 585-590: the trajectory clock is reset on entry, then advanced. -/
def trajectory_clock (s : State) : State :=
  let s1 : State :=
    if s.Command_Last.Mode ≠ Mode.Trajectory_Tracking then { s with time_trajectory := 0 } else s
  { s1 with time_trajectory := s1.time_trajectory + s1.dt }

/-- The clock value at which the generator is queried by a tracking iteration
entered in state `s`. -/
def trajectory_time (s : State) : ℚ :=
  (if s.Command_Last.Mode = Mode.Trajectory_Tracking then s.time_trajectory else 0) + s.dt

/-- Lines 627-631: a finished trajectory rewrites the command slot to Hold. -/
def trajectory_quit (E : Ext) (s : State) : State :=
  if s.time_trajectory ≥ E.time_total then
    { s with Command_Now := { s.Command_Now with Mode := Mode.Hold } }
  else s

/-- Lines 244-634: the statement `switch (Command_Now.Mode)`. -/
def dispatch (P : Params) (E : Ext) (s : State) : State :=
  match s.Command_Now.Mode with
  | Mode.Idle => { s with sent := Setpoint.idle :: s.sent }
  | Mode.Takeoff =>
      let s1 := copy_header s
      track P E (set_ref s1 (takeoff_ref P s1))
  | Mode.Move_ENU => track P E { s with Command_to_gs := s.Command_Now }
  | Mode.Move_Body =>
      let s1 := copy_header s
      track P E (set_ref s1 (move_body_ref E s1))
  | Mode.Hold => track P E (hold_entry (copy_header s))
  | Mode.Land =>
      let s1 := land_entry (copy_header s)
      if |s1._DroneState.position.c2 - s1.Takeoff_position.c2| < P.Disarm_height then
        disarm_requests s1
      else
        track P E s1
  | Mode.Disarm => disarm_requests (copy_header s)
  | Mode.Failsafe_land => s
  | Mode.Trajectory_Tracking =>
      let s1 := trajectory_clock (copy_header s)
      trajectory_quit E (track P E (set_ref s1 (E.Circle_trajectory_generation s1.time_trajectory)))
  | Mode.Unlisted => s

/-- Lines 666-670: publications, then the command is recorded as the last one. -/
def after_switch (s : State) : State :=
  { s with att_ref_pub := s._AttitudeReference :: s.att_ref_pub,
           to_gs_pub := s.Command_to_gs :: s.to_gs_pub,
           Command_Last := s.Command_Now }

/-- One iteration of `while(ros::ok())`. -/
def cycle (P : Params) (E : Ext) (s : State) (i : Input) : State :=
  after_switch (dispatch P E (before_switch P s i))

/-- The mode on which the switch of this iteration dispatches. -/
def dispatched (P : Params) (s : State) (i : Input) : Mode :=
  (before_switch P s i).Command_Now.Mode

/-- The loop, run over the inputs of successive iterations. -/
def run (P : Params) (E : Ext) (s : State) : List Input → State
  | [] => s
  | i :: is => run P E (cycle P E s i) is

/-- The modes dispatched on by successive iterations. -/
def modes (P : Params) (E : Ext) (s : State) : List Input → List Mode
  | [] => []
  | i :: is => dispatched P s i :: modes P E (cycle P E s i) is

/-- The states after successive iterations. -/
def trace (P : Params) (E : Ext) (s : State) : List Input → List State
  | [] => []
  | i :: is => cycle P E s i :: trace P E (cycle P E s i) is

/-- Lines 175-206: the state in which the loop is entered.  The globals that
`main` has not assigned yet are zero-initialised; the takeoff position and the
start time are what was read before the loop. -/
def init (takeoff : Vec3) (mocap : Vec3) (begin_time : ℚ) : State :=
  { Command_Now := ⟨Mode.Idle, 0, ⟨XYZ_POS, ⟨0, 0, 0⟩, ⟨0, 0, 0⟩, ⟨0, 0, 0⟩, 0⟩⟩,
    Command_Last := zeroCommand,
    Command_to_gs := zeroCommand,
    _DroneState := zeroDroneState,
    _AttitudeReference := ⟨zeroVec, []⟩,
    accel_sp := zeroVec,
    Takeoff_position := takeoff,
    pos_drone_mocap := mocap,
    time_trajectory := 0,
    last_time := begin_time,
    dt := 0,
    ctrl_calls := [],
    requests := [],
    sent := [],
    att_ref_pub := [],
    to_gs_pub := [] }

/-! ## Sample configuration

Concrete parameters, collaborators and inputs on which the statements below
are evaluated. -/

/-- The default values of the ROS parameters (lines 102-113) with control law 1. -/
def sampleParams : Params :=
  { Takeoff_height := 1, Disarm_height := 0.15, Use_mocap_raw := 0, Use_accel := 0,
    geo_fence_x := (-100, 100), geo_fence_y := (-100, 100), geo_fence_z := (-100, 100),
    switch_ude := 1 }

/-- Collaborators with simple closed forms: a control law that returns the
position error, a rotation by a quarter turn, and a straight-line trajectory
of total duration 0.02 s flown at unit speed. -/
def sampleExt : Ext :=
  { pos_controller := fun _ _ d r _ =>
      ⟨r.position_ref.c0 - d.position.c0, r.position_ref.c1 - d.position.c1,
       r.position_ref.c2 - d.position.c2⟩,
    thrustToAttitude := fun a yaw => ⟨a, [yaw]⟩,
    rotation_yaw := fun _ v => (-v.2, v.1),
    Circle_trajectory_generation := fun t => ⟨XYZ_POS, ⟨t, 0, 1⟩, ⟨1, 0, 0⟩, ⟨0, 0, 0⟩, 0⟩,
    time_total := 0.02 }

/-- A command with an all-zero reference state. -/
def sampleCommand (m : Mode) (id : Nat) : ControlCommand := ⟨m, id, zeroRef⟩

/-- An estimator state: armed, in offboard mode, at rest at `pos`, yaw zero. -/
def sampleDrone (pos : Vec3) : DroneState :=
  { zeroDroneState with mode := "OFFBOARD", armed := true, position := pos }

/-- The input of an iteration at time `t` that receives the commands `cs`
while the estimator reports the position `pos`. -/
def sampleInput (cs : List ControlCommand) (pos : Vec3) (t : ℚ) : Input :=
  { commands := cs, poses := [], mavros_state := sampleDrone pos, cur_time := t, now := t }

/-- The loop entered on the ground at the origin at time 0. -/
def sampleInit : State := init zeroVec zeroVec 0

/-- The sample state with the vehicle state of the previous iteration at `pos`. -/
def sampleAt (pos : Vec3) : State := { sampleInit with _DroneState := sampleDrone pos }

/-- The sample parameters with an answer to the controller prompt that names
none of the five control laws. -/
def sampleParamsNoLaw : Params := { sampleParams with switch_ude := 5 }

/-- A body-frame command with the Z velocity bit set (sub-mode `0b01`): climb
at 0.5 m/s; its Z position field holds 2. -/
def sampleZVelCommand : ControlCommand :=
  ⟨Mode.Move_Body, 1, ⟨0b01, ⟨0, 0, 2⟩, ⟨0, 0, 0.5⟩, ⟨0, 0, 0⟩, 0⟩⟩

/-- A body-frame command with the XY velocity bit set (sub-mode `0b10`):
velocity (1, 0) ahead, acceleration (0.5, 0, 0.25), yaw offset 0.1. -/
def sampleXYVelCommand : ControlCommand :=
  ⟨Mode.Move_Body, 1, ⟨0b10, ⟨4, 0, 0⟩, ⟨1, 0, 0⟩, ⟨0.5, 0, 0.25⟩, 0.1⟩⟩

/-- The commands handed to `Command_cb` over successive iterations, oldest
first. -/
def received_commands : List Input → List ControlCommand
  | [] => []
  | i :: is => i.commands ++ received_commands is

/-! ## Facts about the phases of an iteration -/

theorem foldl_Command_cb (cs : List ControlCommand) (s : State) :
    cs.foldl Command_cb s = { s with Command_Now := cs.getLast?.getD s.Command_Now } := by
  induction cs generalizing s with
  | nil => rfl
  | cons c cs ih => simp [List.foldl_cons, ih, Command_cb, List.getLast?_cons]

theorem foldl_optitrack_cb (ps : List Vec3) (s : State) :
    ps.foldl optitrack_cb s =
      { s with pos_drone_mocap :=
          (ps.getLast?.map fun p => (⟨-p.c0, p.c2, p.c1⟩ : Vec3)).getD s.pos_drone_mocap } := by
  induction ps generalizing s with
  | nil => rfl
  | cons p ps ih =>
      simp only [List.foldl_cons, ih, optitrack_cb, List.getLast?_cons]
      cases ps.getLast? <;> rfl

/-- The command slot after `spinOnce`: the last command delivered, or the old
content of the slot when none was. -/
theorem spinOnce_eq (s : State) (i : Input) :
    spinOnce s i =
      { s with Command_Now := i.commands.getLast?.getD s.Command_Now,
               pos_drone_mocap :=
                 (i.poses.getLast?.map fun p => (⟨-p.c0, p.c2, p.c1⟩ : Vec3)).getD
                   s.pos_drone_mocap } := by
  simp [spinOnce, foldl_Command_cb, foldl_optitrack_cb]

/-- The geofence check of an iteration reads the `_DroneState` left by the
iteration before. -/
theorem check_failsafe_site (P : Params) (s : State) (i : Input) :
    check_failsafe P (land_latch (update_dt (spinOnce s i) i)) = check_failsafe P s := by
  simp only [check_failsafe, land_latch, update_dt, spinOnce_eq]
  split_ifs <;> rfl

theorem check_failsafe_cases (P : Params) (s : State) :
    check_failsafe P s = 1 ∨ check_failsafe P s = 0 := by
  unfold check_failsafe
  split_ifs
  · exact Or.inl rfl
  · exact Or.inr rfl

/-- The mode seen by the switch. -/
theorem dispatched_eq (P : Params) (s : State) (i : Input) :
    dispatched P s i =
      if s.Command_Last.Mode = Mode.Land ∨ check_failsafe P s = 1 then Mode.Land
      else (i.commands.getLast?.getD s.Command_Now).Mode := by
  have h := check_failsafe_site P s i
  simp only [dispatched, before_switch, refresh_state, failsafe_override, h]
  simp only [land_latch, update_dt, spinOnce_eq]
  by_cases h1 : s.Command_Last.Mode = Mode.Land <;> by_cases h2 : check_failsafe P s = 1 <;>
    by_cases h3 : P.Use_mocap_raw = 1 <;> simp [h1, h2, h3]

theorem before_switch_Command_Last (P : Params) (s : State) (i : Input) :
    (before_switch P s i).Command_Last = s.Command_Last := by
  simp only [before_switch, refresh_state, failsafe_override, land_latch, update_dt, spinOnce_eq]
  split_ifs <;> rfl

theorem before_switch_Command_to_gs (P : Params) (s : State) (i : Input) :
    (before_switch P s i).Command_to_gs = s.Command_to_gs := by
  simp only [before_switch, refresh_state, failsafe_override, land_latch, update_dt, spinOnce_eq]
  split_ifs <;> rfl

theorem before_switch_Takeoff_position (P : Params) (s : State) (i : Input) :
    (before_switch P s i).Takeoff_position = s.Takeoff_position := by
  simp only [before_switch, refresh_state, failsafe_override, land_latch, update_dt, spinOnce_eq]
  split_ifs <;> rfl

theorem before_switch_Command_ID (P : Params) (s : State) (i : Input) :
    (before_switch P s i).Command_Now.Command_ID =
      (i.commands.getLast?.getD s.Command_Now).Command_ID := by
  simp only [before_switch, refresh_state, failsafe_override, land_latch, update_dt, spinOnce_eq]
  split_ifs <;> rfl

theorem before_switch_logs (P : Params) (s : State) (i : Input) :
    (before_switch P s i).ctrl_calls = s.ctrl_calls ∧
    (before_switch P s i).requests = s.requests ∧
    (before_switch P s i).sent = s.sent ∧
    (before_switch P s i).accel_sp = s.accel_sp ∧
    (before_switch P s i)._AttitudeReference = s._AttitudeReference ∧
    (before_switch P s i).time_trajectory = s.time_trajectory := by
  simp only [before_switch, refresh_state, failsafe_override, land_latch, update_dt, spinOnce_eq]
  split_ifs <;> simp

/-! ### What each block of the switch leaves alone -/

@[simp]
theorem track_Command_Now (P : Params) (E : Ext) (s : State) :
    (track P E s).Command_Now = s.Command_Now := by
  simp only [track, send_setpoint, select_law, invoke_law]
  split_ifs <;> rfl

@[simp]
theorem track_Command_Last (P : Params) (E : Ext) (s : State) :
    (track P E s).Command_Last = s.Command_Last := by
  simp only [track, send_setpoint, select_law, invoke_law]
  split_ifs <;> rfl

@[simp]
theorem track_Command_to_gs (P : Params) (E : Ext) (s : State) :
    (track P E s).Command_to_gs = s.Command_to_gs := by
  simp only [track, send_setpoint, select_law, invoke_law]
  split_ifs <;> rfl

@[simp]
theorem track_DroneState (P : Params) (E : Ext) (s : State) :
    (track P E s)._DroneState = s._DroneState := by
  simp only [track, send_setpoint, select_law, invoke_law]
  split_ifs <;> rfl

@[simp]
theorem track_Takeoff_position (P : Params) (E : Ext) (s : State) :
    (track P E s).Takeoff_position = s.Takeoff_position := by
  simp only [track, send_setpoint, select_law, invoke_law]
  split_ifs <;> rfl

@[simp]
theorem track_pos_drone_mocap (P : Params) (E : Ext) (s : State) :
    (track P E s).pos_drone_mocap = s.pos_drone_mocap := by
  simp only [track, send_setpoint, select_law, invoke_law]
  split_ifs <;> rfl

@[simp]
theorem track_time_trajectory (P : Params) (E : Ext) (s : State) :
    (track P E s).time_trajectory = s.time_trajectory := by
  simp only [track, send_setpoint, select_law, invoke_law]
  split_ifs <;> rfl

@[simp]
theorem track_last_time (P : Params) (E : Ext) (s : State) :
    (track P E s).last_time = s.last_time := by
  simp only [track, send_setpoint, select_law, invoke_law]
  split_ifs <;> rfl

@[simp]
theorem track_dt (P : Params) (E : Ext) (s : State) :
    (track P E s).dt = s.dt := by
  simp only [track, send_setpoint, select_law, invoke_law]
  split_ifs <;> rfl

@[simp]
theorem track_requests (P : Params) (E : Ext) (s : State) :
    (track P E s).requests = s.requests := by
  simp only [track, send_setpoint, select_law, invoke_law]
  split_ifs <;> rfl

@[simp]
theorem track_att_ref_pub (P : Params) (E : Ext) (s : State) :
    (track P E s).att_ref_pub = s.att_ref_pub := by
  simp only [track, send_setpoint, select_law, invoke_law]
  split_ifs <;> rfl

@[simp]
theorem track_to_gs_pub (P : Params) (E : Ext) (s : State) :
    (track P E s).to_gs_pub = s.to_gs_pub := by
  simp only [track, send_setpoint, select_law, invoke_law]
  split_ifs <;> rfl

@[simp]
theorem disarm_requests_Command_Now (s : State) :
    (disarm_requests s).Command_Now = s.Command_Now := by
  simp only [disarm_requests]
  split_ifs <;> rfl

@[simp]
theorem disarm_requests_Command_Last (s : State) :
    (disarm_requests s).Command_Last = s.Command_Last := by
  simp only [disarm_requests]
  split_ifs <;> rfl

@[simp]
theorem disarm_requests_Command_to_gs (s : State) :
    (disarm_requests s).Command_to_gs = s.Command_to_gs := by
  simp only [disarm_requests]
  split_ifs <;> rfl

@[simp]
theorem disarm_requests_DroneState (s : State) :
    (disarm_requests s)._DroneState = s._DroneState := by
  simp only [disarm_requests]
  split_ifs <;> rfl

@[simp]
theorem disarm_requests_AttitudeReference (s : State) :
    (disarm_requests s)._AttitudeReference = s._AttitudeReference := by
  simp only [disarm_requests]
  split_ifs <;> rfl

@[simp]
theorem disarm_requests_accel_sp (s : State) :
    (disarm_requests s).accel_sp = s.accel_sp := by
  simp only [disarm_requests]
  split_ifs <;> rfl

@[simp]
theorem disarm_requests_Takeoff_position (s : State) :
    (disarm_requests s).Takeoff_position = s.Takeoff_position := by
  simp only [disarm_requests]
  split_ifs <;> rfl

@[simp]
theorem disarm_requests_pos_drone_mocap (s : State) :
    (disarm_requests s).pos_drone_mocap = s.pos_drone_mocap := by
  simp only [disarm_requests]
  split_ifs <;> rfl

@[simp]
theorem disarm_requests_time_trajectory (s : State) :
    (disarm_requests s).time_trajectory = s.time_trajectory := by
  simp only [disarm_requests]
  split_ifs <;> rfl

@[simp]
theorem disarm_requests_last_time (s : State) :
    (disarm_requests s).last_time = s.last_time := by
  simp only [disarm_requests]
  split_ifs <;> rfl

@[simp]
theorem disarm_requests_dt (s : State) :
    (disarm_requests s).dt = s.dt := by
  simp only [disarm_requests]
  split_ifs <;> rfl

@[simp]
theorem disarm_requests_ctrl_calls (s : State) :
    (disarm_requests s).ctrl_calls = s.ctrl_calls := by
  simp only [disarm_requests]
  split_ifs <;> rfl

@[simp]
theorem disarm_requests_sent (s : State) :
    (disarm_requests s).sent = s.sent := by
  simp only [disarm_requests]
  split_ifs <;> rfl

@[simp]
theorem disarm_requests_att_ref_pub (s : State) :
    (disarm_requests s).att_ref_pub = s.att_ref_pub := by
  simp only [disarm_requests]
  split_ifs <;> rfl

@[simp]
theorem disarm_requests_to_gs_pub (s : State) :
    (disarm_requests s).to_gs_pub = s.to_gs_pub := by
  simp only [disarm_requests]
  split_ifs <;> rfl

@[simp]
theorem copy_header_Command_Now (s : State) :
    (copy_header s).Command_Now = s.Command_Now := by
  rfl

@[simp]
theorem copy_header_Command_Last (s : State) :
    (copy_header s).Command_Last = s.Command_Last := by
  rfl

@[simp]
theorem copy_header_DroneState (s : State) :
    (copy_header s)._DroneState = s._DroneState := by
  rfl

@[simp]
theorem copy_header_AttitudeReference (s : State) :
    (copy_header s)._AttitudeReference = s._AttitudeReference := by
  rfl

@[simp]
theorem copy_header_accel_sp (s : State) :
    (copy_header s).accel_sp = s.accel_sp := by
  rfl

@[simp]
theorem copy_header_Takeoff_position (s : State) :
    (copy_header s).Takeoff_position = s.Takeoff_position := by
  rfl

@[simp]
theorem copy_header_pos_drone_mocap (s : State) :
    (copy_header s).pos_drone_mocap = s.pos_drone_mocap := by
  rfl

@[simp]
theorem copy_header_time_trajectory (s : State) :
    (copy_header s).time_trajectory = s.time_trajectory := by
  rfl

@[simp]
theorem copy_header_last_time (s : State) :
    (copy_header s).last_time = s.last_time := by
  rfl

@[simp]
theorem copy_header_dt (s : State) :
    (copy_header s).dt = s.dt := by
  rfl

@[simp]
theorem copy_header_ctrl_calls (s : State) :
    (copy_header s).ctrl_calls = s.ctrl_calls := by
  rfl

@[simp]
theorem copy_header_requests (s : State) :
    (copy_header s).requests = s.requests := by
  rfl

@[simp]
theorem copy_header_sent (s : State) :
    (copy_header s).sent = s.sent := by
  rfl

@[simp]
theorem copy_header_att_ref_pub (s : State) :
    (copy_header s).att_ref_pub = s.att_ref_pub := by
  rfl

@[simp]
theorem copy_header_to_gs_pub (s : State) :
    (copy_header s).to_gs_pub = s.to_gs_pub := by
  rfl

@[simp]
theorem copy_header_Reference_State (s : State) :
    (copy_header s).Command_to_gs.Reference_State = s.Command_to_gs.Reference_State := rfl

@[simp]
theorem copy_header_Mode (s : State) :
    (copy_header s).Command_to_gs.Mode = s.Command_Now.Mode := rfl

@[simp]
theorem copy_header_Command_ID (s : State) :
    (copy_header s).Command_to_gs.Command_ID = s.Command_Now.Command_ID := rfl

@[simp]
theorem set_ref_Command_Now (s : State) (r : ReferenceState) :
    (set_ref s r).Command_Now = s.Command_Now := by
  rfl

@[simp]
theorem set_ref_Command_Last (s : State) (r : ReferenceState) :
    (set_ref s r).Command_Last = s.Command_Last := by
  rfl

@[simp]
theorem set_ref_DroneState (s : State) (r : ReferenceState) :
    (set_ref s r)._DroneState = s._DroneState := by
  rfl

@[simp]
theorem set_ref_AttitudeReference (s : State) (r : ReferenceState) :
    (set_ref s r)._AttitudeReference = s._AttitudeReference := by
  rfl

@[simp]
theorem set_ref_accel_sp (s : State) (r : ReferenceState) :
    (set_ref s r).accel_sp = s.accel_sp := by
  rfl

@[simp]
theorem set_ref_Takeoff_position (s : State) (r : ReferenceState) :
    (set_ref s r).Takeoff_position = s.Takeoff_position := by
  rfl

@[simp]
theorem set_ref_pos_drone_mocap (s : State) (r : ReferenceState) :
    (set_ref s r).pos_drone_mocap = s.pos_drone_mocap := by
  rfl

@[simp]
theorem set_ref_time_trajectory (s : State) (r : ReferenceState) :
    (set_ref s r).time_trajectory = s.time_trajectory := by
  rfl

@[simp]
theorem set_ref_last_time (s : State) (r : ReferenceState) :
    (set_ref s r).last_time = s.last_time := by
  rfl

@[simp]
theorem set_ref_dt (s : State) (r : ReferenceState) :
    (set_ref s r).dt = s.dt := by
  rfl

@[simp]
theorem set_ref_ctrl_calls (s : State) (r : ReferenceState) :
    (set_ref s r).ctrl_calls = s.ctrl_calls := by
  rfl

@[simp]
theorem set_ref_requests (s : State) (r : ReferenceState) :
    (set_ref s r).requests = s.requests := by
  rfl

@[simp]
theorem set_ref_sent (s : State) (r : ReferenceState) :
    (set_ref s r).sent = s.sent := by
  rfl

@[simp]
theorem set_ref_att_ref_pub (s : State) (r : ReferenceState) :
    (set_ref s r).att_ref_pub = s.att_ref_pub := by
  rfl

@[simp]
theorem set_ref_to_gs_pub (s : State) (r : ReferenceState) :
    (set_ref s r).to_gs_pub = s.to_gs_pub := by
  rfl

@[simp]
theorem set_ref_Reference_State (s : State) (r : ReferenceState) :
    (set_ref s r).Command_to_gs.Reference_State = r := rfl

@[simp]
theorem set_ref_Mode (s : State) (r : ReferenceState) :
    (set_ref s r).Command_to_gs.Mode = s.Command_to_gs.Mode := rfl

@[simp]
theorem set_ref_Command_ID (s : State) (r : ReferenceState) :
    (set_ref s r).Command_to_gs.Command_ID = s.Command_to_gs.Command_ID := rfl

@[simp]
theorem hold_entry_Command_Now (s : State) :
    (hold_entry s).Command_Now = s.Command_Now := by
  simp only [hold_entry]
  split_ifs <;> rfl

@[simp]
theorem hold_entry_Command_Last (s : State) :
    (hold_entry s).Command_Last = s.Command_Last := by
  simp only [hold_entry]
  split_ifs <;> rfl

@[simp]
theorem hold_entry_DroneState (s : State) :
    (hold_entry s)._DroneState = s._DroneState := by
  simp only [hold_entry]
  split_ifs <;> rfl

@[simp]
theorem hold_entry_AttitudeReference (s : State) :
    (hold_entry s)._AttitudeReference = s._AttitudeReference := by
  simp only [hold_entry]
  split_ifs <;> rfl

@[simp]
theorem hold_entry_accel_sp (s : State) :
    (hold_entry s).accel_sp = s.accel_sp := by
  simp only [hold_entry]
  split_ifs <;> rfl

@[simp]
theorem hold_entry_Takeoff_position (s : State) :
    (hold_entry s).Takeoff_position = s.Takeoff_position := by
  simp only [hold_entry]
  split_ifs <;> rfl

@[simp]
theorem hold_entry_pos_drone_mocap (s : State) :
    (hold_entry s).pos_drone_mocap = s.pos_drone_mocap := by
  simp only [hold_entry]
  split_ifs <;> rfl

@[simp]
theorem hold_entry_time_trajectory (s : State) :
    (hold_entry s).time_trajectory = s.time_trajectory := by
  simp only [hold_entry]
  split_ifs <;> rfl

@[simp]
theorem hold_entry_last_time (s : State) :
    (hold_entry s).last_time = s.last_time := by
  simp only [hold_entry]
  split_ifs <;> rfl

@[simp]
theorem hold_entry_dt (s : State) :
    (hold_entry s).dt = s.dt := by
  simp only [hold_entry]
  split_ifs <;> rfl

@[simp]
theorem hold_entry_ctrl_calls (s : State) :
    (hold_entry s).ctrl_calls = s.ctrl_calls := by
  simp only [hold_entry]
  split_ifs <;> rfl

@[simp]
theorem hold_entry_requests (s : State) :
    (hold_entry s).requests = s.requests := by
  simp only [hold_entry]
  split_ifs <;> rfl

@[simp]
theorem hold_entry_sent (s : State) :
    (hold_entry s).sent = s.sent := by
  simp only [hold_entry]
  split_ifs <;> rfl

@[simp]
theorem hold_entry_att_ref_pub (s : State) :
    (hold_entry s).att_ref_pub = s.att_ref_pub := by
  simp only [hold_entry]
  split_ifs <;> rfl

@[simp]
theorem hold_entry_to_gs_pub (s : State) :
    (hold_entry s).to_gs_pub = s.to_gs_pub := by
  simp only [hold_entry]
  split_ifs <;> rfl

@[simp]
theorem land_entry_Command_Now (s : State) :
    (land_entry s).Command_Now = s.Command_Now := by
  simp only [land_entry]
  split_ifs <;> rfl

@[simp]
theorem land_entry_Command_Last (s : State) :
    (land_entry s).Command_Last = s.Command_Last := by
  simp only [land_entry]
  split_ifs <;> rfl

@[simp]
theorem land_entry_DroneState (s : State) :
    (land_entry s)._DroneState = s._DroneState := by
  simp only [land_entry]
  split_ifs <;> rfl

@[simp]
theorem land_entry_AttitudeReference (s : State) :
    (land_entry s)._AttitudeReference = s._AttitudeReference := by
  simp only [land_entry]
  split_ifs <;> rfl

@[simp]
theorem land_entry_accel_sp (s : State) :
    (land_entry s).accel_sp = s.accel_sp := by
  simp only [land_entry]
  split_ifs <;> rfl

@[simp]
theorem land_entry_Takeoff_position (s : State) :
    (land_entry s).Takeoff_position = s.Takeoff_position := by
  simp only [land_entry]
  split_ifs <;> rfl

@[simp]
theorem land_entry_pos_drone_mocap (s : State) :
    (land_entry s).pos_drone_mocap = s.pos_drone_mocap := by
  simp only [land_entry]
  split_ifs <;> rfl

@[simp]
theorem land_entry_time_trajectory (s : State) :
    (land_entry s).time_trajectory = s.time_trajectory := by
  simp only [land_entry]
  split_ifs <;> rfl

@[simp]
theorem land_entry_last_time (s : State) :
    (land_entry s).last_time = s.last_time := by
  simp only [land_entry]
  split_ifs <;> rfl

@[simp]
theorem land_entry_dt (s : State) :
    (land_entry s).dt = s.dt := by
  simp only [land_entry]
  split_ifs <;> rfl

@[simp]
theorem land_entry_ctrl_calls (s : State) :
    (land_entry s).ctrl_calls = s.ctrl_calls := by
  simp only [land_entry]
  split_ifs <;> rfl

@[simp]
theorem land_entry_requests (s : State) :
    (land_entry s).requests = s.requests := by
  simp only [land_entry]
  split_ifs <;> rfl

@[simp]
theorem land_entry_sent (s : State) :
    (land_entry s).sent = s.sent := by
  simp only [land_entry]
  split_ifs <;> rfl

@[simp]
theorem land_entry_att_ref_pub (s : State) :
    (land_entry s).att_ref_pub = s.att_ref_pub := by
  simp only [land_entry]
  split_ifs <;> rfl

@[simp]
theorem land_entry_to_gs_pub (s : State) :
    (land_entry s).to_gs_pub = s.to_gs_pub := by
  simp only [land_entry]
  split_ifs <;> rfl

@[simp]
theorem trajectory_clock_Command_Now (s : State) :
    (trajectory_clock s).Command_Now = s.Command_Now := by
  simp only [trajectory_clock]
  split_ifs <;> rfl

@[simp]
theorem trajectory_clock_Command_Last (s : State) :
    (trajectory_clock s).Command_Last = s.Command_Last := by
  simp only [trajectory_clock]
  split_ifs <;> rfl

@[simp]
theorem trajectory_clock_Command_to_gs (s : State) :
    (trajectory_clock s).Command_to_gs = s.Command_to_gs := by
  simp only [trajectory_clock]
  split_ifs <;> rfl

@[simp]
theorem trajectory_clock_DroneState (s : State) :
    (trajectory_clock s)._DroneState = s._DroneState := by
  simp only [trajectory_clock]
  split_ifs <;> rfl

@[simp]
theorem trajectory_clock_AttitudeReference (s : State) :
    (trajectory_clock s)._AttitudeReference = s._AttitudeReference := by
  simp only [trajectory_clock]
  split_ifs <;> rfl

@[simp]
theorem trajectory_clock_accel_sp (s : State) :
    (trajectory_clock s).accel_sp = s.accel_sp := by
  simp only [trajectory_clock]
  split_ifs <;> rfl

@[simp]
theorem trajectory_clock_Takeoff_position (s : State) :
    (trajectory_clock s).Takeoff_position = s.Takeoff_position := by
  simp only [trajectory_clock]
  split_ifs <;> rfl

@[simp]
theorem trajectory_clock_pos_drone_mocap (s : State) :
    (trajectory_clock s).pos_drone_mocap = s.pos_drone_mocap := by
  simp only [trajectory_clock]
  split_ifs <;> rfl

@[simp]
theorem trajectory_clock_last_time (s : State) :
    (trajectory_clock s).last_time = s.last_time := by
  simp only [trajectory_clock]
  split_ifs <;> rfl

@[simp]
theorem trajectory_clock_dt (s : State) :
    (trajectory_clock s).dt = s.dt := by
  simp only [trajectory_clock]
  split_ifs <;> rfl

@[simp]
theorem trajectory_clock_ctrl_calls (s : State) :
    (trajectory_clock s).ctrl_calls = s.ctrl_calls := by
  simp only [trajectory_clock]
  split_ifs <;> rfl

@[simp]
theorem trajectory_clock_requests (s : State) :
    (trajectory_clock s).requests = s.requests := by
  simp only [trajectory_clock]
  split_ifs <;> rfl

@[simp]
theorem trajectory_clock_sent (s : State) :
    (trajectory_clock s).sent = s.sent := by
  simp only [trajectory_clock]
  split_ifs <;> rfl

@[simp]
theorem trajectory_clock_att_ref_pub (s : State) :
    (trajectory_clock s).att_ref_pub = s.att_ref_pub := by
  simp only [trajectory_clock]
  split_ifs <;> rfl

@[simp]
theorem trajectory_clock_to_gs_pub (s : State) :
    (trajectory_clock s).to_gs_pub = s.to_gs_pub := by
  simp only [trajectory_clock]
  split_ifs <;> rfl

@[simp]
theorem trajectory_quit_Command_Last (E : Ext) (s : State) :
    (trajectory_quit E s).Command_Last = s.Command_Last := by
  simp only [trajectory_quit]
  split_ifs <;> rfl

@[simp]
theorem trajectory_quit_Command_to_gs (E : Ext) (s : State) :
    (trajectory_quit E s).Command_to_gs = s.Command_to_gs := by
  simp only [trajectory_quit]
  split_ifs <;> rfl

@[simp]
theorem trajectory_quit_DroneState (E : Ext) (s : State) :
    (trajectory_quit E s)._DroneState = s._DroneState := by
  simp only [trajectory_quit]
  split_ifs <;> rfl

@[simp]
theorem trajectory_quit_AttitudeReference (E : Ext) (s : State) :
    (trajectory_quit E s)._AttitudeReference = s._AttitudeReference := by
  simp only [trajectory_quit]
  split_ifs <;> rfl

@[simp]
theorem trajectory_quit_accel_sp (E : Ext) (s : State) :
    (trajectory_quit E s).accel_sp = s.accel_sp := by
  simp only [trajectory_quit]
  split_ifs <;> rfl

@[simp]
theorem trajectory_quit_Takeoff_position (E : Ext) (s : State) :
    (trajectory_quit E s).Takeoff_position = s.Takeoff_position := by
  simp only [trajectory_quit]
  split_ifs <;> rfl

@[simp]
theorem trajectory_quit_pos_drone_mocap (E : Ext) (s : State) :
    (trajectory_quit E s).pos_drone_mocap = s.pos_drone_mocap := by
  simp only [trajectory_quit]
  split_ifs <;> rfl

@[simp]
theorem trajectory_quit_time_trajectory (E : Ext) (s : State) :
    (trajectory_quit E s).time_trajectory = s.time_trajectory := by
  simp only [trajectory_quit]
  split_ifs <;> rfl

@[simp]
theorem trajectory_quit_last_time (E : Ext) (s : State) :
    (trajectory_quit E s).last_time = s.last_time := by
  simp only [trajectory_quit]
  split_ifs <;> rfl

@[simp]
theorem trajectory_quit_dt (E : Ext) (s : State) :
    (trajectory_quit E s).dt = s.dt := by
  simp only [trajectory_quit]
  split_ifs <;> rfl

@[simp]
theorem trajectory_quit_ctrl_calls (E : Ext) (s : State) :
    (trajectory_quit E s).ctrl_calls = s.ctrl_calls := by
  simp only [trajectory_quit]
  split_ifs <;> rfl

@[simp]
theorem trajectory_quit_requests (E : Ext) (s : State) :
    (trajectory_quit E s).requests = s.requests := by
  simp only [trajectory_quit]
  split_ifs <;> rfl

@[simp]
theorem trajectory_quit_sent (E : Ext) (s : State) :
    (trajectory_quit E s).sent = s.sent := by
  simp only [trajectory_quit]
  split_ifs <;> rfl

@[simp]
theorem trajectory_quit_att_ref_pub (E : Ext) (s : State) :
    (trajectory_quit E s).att_ref_pub = s.att_ref_pub := by
  simp only [trajectory_quit]
  split_ifs <;> rfl

@[simp]
theorem trajectory_quit_to_gs_pub (E : Ext) (s : State) :
    (trajectory_quit E s).to_gs_pub = s.to_gs_pub := by
  simp only [trajectory_quit]
  split_ifs <;> rfl

/-! ## Facts about the switch -/

theorem dispatch_Command_Last (P : Params) (E : Ext) (s : State) :
    (dispatch P E s).Command_Last = s.Command_Last := by
  unfold dispatch
  split <;> try simp
  split_ifs <;> simp

theorem dispatch_Takeoff_position (P : Params) (E : Ext) (s : State) :
    (dispatch P E s).Takeoff_position = s.Takeoff_position := by
  unfold dispatch
  split <;> try simp
  split_ifs <;> simp

theorem dispatch_DroneState (P : Params) (E : Ext) (s : State) :
    (dispatch P E s)._DroneState = s._DroneState := by
  unfold dispatch
  split <;> try simp
  split_ifs <;> simp

/-- Only a completed trajectory rewrites the mode of the command slot. -/
theorem dispatch_Command_Now (P : Params) (E : Ext) (s : State)
    (h : s.Command_Now.Mode ≠ Mode.Trajectory_Tracking) :
    (dispatch P E s).Command_Now = s.Command_Now := by
  unfold dispatch
  split <;> try simp
  · split_ifs <;> simp
  · rename_i h1
    exact absurd h1 h

theorem dispatch_trajectory_Mode (P : Params) (E : Ext) (s : State)
    (h : s.Command_Now.Mode = Mode.Trajectory_Tracking) :
    (dispatch P E s).Command_Now.Mode = Mode.Trajectory_Tracking ∨
      (dispatch P E s).Command_Now.Mode = Mode.Hold := by
  simp only [dispatch, h, trajectory_quit]
  split_ifs
  · exact Or.inr rfl
  · left
    simp [h]

/-! ## Facts about one iteration -/

/-- The mode recorded for the next iteration is the one dispatched on, or Hold
after a tracking iteration. -/
theorem cycle_Command_Last_Mode (P : Params) (E : Ext) (s : State) (i : Input) :
    (cycle P E s i).Command_Last.Mode = dispatched P s i ∨
      (dispatched P s i = Mode.Trajectory_Tracking ∧
        (cycle P E s i).Command_Last.Mode = Mode.Hold) := by
  by_cases h : (before_switch P s i).Command_Now.Mode = Mode.Trajectory_Tracking
  · rcases dispatch_trajectory_Mode P E _ h with h1 | h1
    · left
      simp [cycle, after_switch, dispatched, h1, h]
    · right
      simp [cycle, after_switch, dispatched, h1, h]
  · left
    simp [cycle, after_switch, dispatched, dispatch_Command_Now P E _ h]

theorem cycle_Command_Last_of_ne_trajectory (P : Params) (E : Ext) (s : State) (i : Input)
    (h : dispatched P s i ≠ Mode.Trajectory_Tracking) :
    (cycle P E s i).Command_Last.Mode = dispatched P s i := by
  rcases cycle_Command_Last_Mode P E s i with h1 | h1
  · exact h1
  · exact absurd h1.1 h

theorem cycle_Takeoff_position (P : Params) (E : Ext) (s : State) (i : Input) :
    (cycle P E s i).Takeoff_position = s.Takeoff_position := by
  simp [cycle, after_switch, dispatch_Takeoff_position, before_switch_Takeoff_position]

theorem cycle_DroneState (P : Params) (E : Ext) (s : State) (i : Input) :
    (cycle P E s i)._DroneState = (before_switch P s i)._DroneState := by
  simp [cycle, after_switch, dispatch_DroneState]

theorem cycle_Command_to_gs (P : Params) (E : Ext) (s : State) (i : Input) :
    (cycle P E s i).Command_to_gs = (dispatch P E (before_switch P s i)).Command_to_gs := by
  simp [cycle, after_switch]

/-- A recorded Land keeps the switch on Land. -/
theorem dispatched_of_last_Land (P : Params) (s : State) (i : Input)
    (h : s.Command_Last.Mode = Mode.Land) : dispatched P s i = Mode.Land := by
  simp [dispatched_eq, h]

/-- An iteration on Land records Land. -/
theorem cycle_last_Land (P : Params) (E : Ext) (s : State) (i : Input)
    (h : dispatched P s i = Mode.Land) : (cycle P E s i).Command_Last.Mode = Mode.Land := by
  rw [cycle_Command_Last_of_ne_trajectory P E s i (by simp [h]), h]

/-- Once Land is recorded, every later iteration dispatches on Land. -/
theorem modes_of_last_Land (P : Params) (E : Ext) (is : List Input) (s : State)
    (h : s.Command_Last.Mode = Mode.Land) : ∀ m ∈ modes P E s is, m = Mode.Land := by
  induction is generalizing s with
  | nil => simp [modes]
  | cons i is ih =>
      intro m hm
      simp only [modes, List.mem_cons] at hm
      rcases hm with hm | hm
      · rw [hm]
        exact dispatched_of_last_Land P s i h
      · exact ih _ (cycle_last_Land P E s i (dispatched_of_last_Land P s i h)) m hm

theorem modes_length (P : Params) (E : Ext) (is : List Input) (s : State) :
    (modes P E s is).length = is.length := by
  induction is generalizing s with
  | nil => rfl
  | cons i is ih => simp [modes, ih]

/-! ### Projections of the sample data -/

@[simp]
theorem sampleInput_commands (cs : List ControlCommand) (pos : Vec3) (t : ℚ) :
    (sampleInput cs pos t).commands = cs := rfl

@[simp]
theorem sampleInput_cur_time (cs : List ControlCommand) (pos : Vec3) (t : ℚ) :
    (sampleInput cs pos t).cur_time = t := rfl

@[simp]
theorem sampleCommand_Mode (m : Mode) (id : Nat) : (sampleCommand m id).Mode = m := rfl

@[simp]
theorem sampleCommand_Command_ID (m : Mode) (id : Nat) :
    (sampleCommand m id).Command_ID = id := rfl

@[simp]
theorem sampleInit_Command_Last_Mode : sampleInit.Command_Last.Mode = Mode.Idle := rfl

@[simp]
theorem sampleInit_Command_Now_Mode : sampleInit.Command_Now.Mode = Mode.Idle := rfl

@[simp]
theorem sampleInit_last_time : sampleInit.last_time = 0 := rfl

/-- The vehicle position an iteration on sample data works on is the one the
estimator reports. -/
theorem before_switch_sample_position (s : State) (cs : List ControlCommand) (pos : Vec3)
    (t : ℚ) :
    (before_switch sampleParams s (sampleInput cs pos t))._DroneState.position = pos := by
  simp [before_switch, refresh_state, sampleParams, sampleInput, sampleDrone]

/-- An iteration on sample data at a position inside the default fence leaves
a state that passes the geofence check. -/
theorem check_failsafe_sample_cycle (s : State) (cs : List ControlCommand) (pos : Vec3) (t : ℚ)
    (h : -100 ≤ pos.c0 ∧ pos.c0 ≤ 100 ∧ -100 ≤ pos.c1 ∧ pos.c1 ≤ 100 ∧
      -100 ≤ pos.c2 ∧ pos.c2 ≤ 100) :
    check_failsafe sampleParams (cycle sampleParams sampleExt s (sampleInput cs pos t)) = 0 := by
  obtain ⟨h1, h2, h3, h4, h5, h6⟩ := h
  simp only [check_failsafe, cycle_DroneState, before_switch_sample_position]
  rw [if_neg]
  simp only [sampleParams, not_or, not_lt, gt_iff_lt]
  exact ⟨h1, h2, h3, h4, h5, h6⟩

/-- No fence is violated at the origin under the default parameters. -/
theorem check_failsafe_sampleInit : check_failsafe sampleParams sampleInit = 0 := by
  norm_num [check_failsafe, sampleParams, sampleInit, init, zeroDroneState, zeroVec]

/-! ## Mode arbitration -/

/-- C1. Land is terminal: in the run of the loop over any inputs from any
state, if iteration `k` dispatches on Land then so does every later iteration
`j`, whatever commands are received. -/
theorem land_is_terminal (P : Params) (E : Ext) (is : List Input) (s : State) (k j : Nat)
    (hkj : k ≤ j) (hj : j < is.length)
    (hk : (modes P E s is)[k]? = some Mode.Land) :
    (modes P E s is)[j]? = some Mode.Land := by
  induction is generalizing s k j with
  | nil => simp at hj
  | cons i is ih =>
      cases k with
      | zero =>
          cases j with
          | zero => exact hk
          | succ j =>
              have h0 : dispatched P s i = Mode.Land := by simpa [modes] using hk
              have hlen : j < (modes P E (cycle P E s i) is).length := by
                rw [modes_length]
                simpa using hj
              simp only [modes, List.getElem?_cons_succ]
              rw [List.getElem?_eq_getElem hlen]
              exact congrArg some
                (modes_of_last_Land P E is _ (cycle_last_Land P E s i h0) _ (List.getElem_mem hlen))
      | succ k =>
          cases j with
          | zero => omega
          | succ j =>
              simp only [modes, List.getElem?_cons_succ] at hk ⊢
              exact ih _ k j (by omega) (by simpa using hj) hk

/-- C1 on a run: Land is commanded in the first iteration and Takeoff in the
second, which still dispatches on Land. -/
theorem land_is_terminal_witness :
    (modes sampleParams sampleExt sampleInit
      [sampleInput [sampleCommand Mode.Land 1] zeroVec 0.02,
       sampleInput [sampleCommand Mode.Takeoff 2] zeroVec 0.04])[1]? = some Mode.Land :=
  land_is_terminal sampleParams sampleExt _ sampleInit 0 1 (by decide) (by decide)
    (by simp [modes, dispatched_eq, check_failsafe_sampleInit, sampleInput, sampleCommand,
          sampleInit, init, zeroCommand])

/-- C2. Mode arbitration: the mode the switch dispatches on is Land when the
recorded mode `Command_Last.Mode` is Land or `check_failsafe()`, called where
the loop calls it, returns 1; otherwise it is the mode in the command slot as
`Command_cb` left it, that is the mode of the last command delivered in this
iteration, or of the previous content of the slot when none was delivered. -/
theorem mode_arbitration (P : Params) (s : State) (i : Input) :
    dispatched P s i =
      if s.Command_Last.Mode = Mode.Land ∨
          check_failsafe P (land_latch (update_dt (spinOnce s i) i)) = 1 then Mode.Land
      else (spinOnce s i).Command_Now.Mode := by
  rw [check_failsafe_site, dispatched_eq, spinOnce_eq]

/-- C3. The geofence check returns 1 exactly when some coordinate is strictly
below its minimum or strictly above its maximum, and returns 0 whenever every
coordinate lies in its closed interval, bounds included. -/
theorem check_failsafe_spec (P : Params) (s : State) :
    (check_failsafe P s = 1 ↔
      (s._DroneState.position.c0 < P.geo_fence_x.1 ∨ s._DroneState.position.c0 > P.geo_fence_x.2 ∨
       s._DroneState.position.c1 < P.geo_fence_y.1 ∨ s._DroneState.position.c1 > P.geo_fence_y.2 ∨
       s._DroneState.position.c2 < P.geo_fence_z.1 ∨ s._DroneState.position.c2 > P.geo_fence_z.2)) ∧
    ((P.geo_fence_x.1 ≤ s._DroneState.position.c0 ∧ s._DroneState.position.c0 ≤ P.geo_fence_x.2 ∧
      P.geo_fence_y.1 ≤ s._DroneState.position.c1 ∧ s._DroneState.position.c1 ≤ P.geo_fence_y.2 ∧
      P.geo_fence_z.1 ≤ s._DroneState.position.c2 ∧ s._DroneState.position.c2 ≤ P.geo_fence_z.2) →
      check_failsafe P s = 0) := by
  constructor
  · unfold check_failsafe
    split_ifs with h
    · simp [h]
    · simp [h]
  · rintro ⟨h1, h2, h3, h4, h5, h6⟩
    unfold check_failsafe
    rw [if_neg]
    simp only [not_or, not_lt, gt_iff_lt]
    exact ⟨h1, h2, h3, h4, h5, h6⟩

/-- C3 on the boundary: a position with X equal to the maximum and Y equal to
the minimum of the fence is inside. -/
theorem check_failsafe_spec_witness :
    check_failsafe sampleParams (sampleAt ⟨100, -100, 0⟩) = 0 :=
  (check_failsafe_spec sampleParams (sampleAt ⟨100, -100, 0⟩)).2
    (by norm_num [sampleParams, sampleAt, sampleDrone])

/-- C4. The geofence verdict of an iteration is not that of the vehicle state
the iteration works on: `check_failsafe` runs before `_DroneState` is
refreshed.  Here the estimator reports X = 200, outside the fence [-100, 100],
in the first iteration: the refreshed state fails the check, yet the
iteration dispatches on the commanded Takeoff, and Land follows only in the
next iteration. -/
theorem geofence_verdict_is_stale :
    check_failsafe sampleParams
        (before_switch sampleParams sampleInit
          (sampleInput [sampleCommand Mode.Takeoff 1] ⟨200, 0, 0⟩ 0.02)) = 1 ∧
      modes sampleParams sampleExt sampleInit
        [sampleInput [sampleCommand Mode.Takeoff 1] ⟨200, 0, 0⟩ 0.02,
         sampleInput [] ⟨200, 0, 0⟩ 0.04] = [Mode.Takeoff, Mode.Land] := by
  have hb : (before_switch sampleParams sampleInit
      (sampleInput [sampleCommand Mode.Takeoff 1] ⟨200, 0, 0⟩ 0.02))._DroneState.position
        = ⟨200, 0, 0⟩ := by
    simp [before_switch, refresh_state, sampleParams, sampleInput, sampleDrone]
  have h1 : check_failsafe sampleParams
      (before_switch sampleParams sampleInit
        (sampleInput [sampleCommand Mode.Takeoff 1] ⟨200, 0, 0⟩ 0.02)) = 1 := by
    simp only [check_failsafe, hb]
    norm_num [sampleParams]
  have h2 : check_failsafe sampleParams
      (cycle sampleParams sampleExt sampleInit
        (sampleInput [sampleCommand Mode.Takeoff 1] ⟨200, 0, 0⟩ 0.02)) = 1 := by
    simp only [check_failsafe, cycle_DroneState, hb]
    norm_num [sampleParams]
  have d1 : dispatched sampleParams sampleInit
      (sampleInput [sampleCommand Mode.Takeoff 1] ⟨200, 0, 0⟩ 0.02) = Mode.Takeoff := by
    rw [dispatched_eq, check_failsafe_sampleInit]
    simp [sampleInput, sampleCommand, sampleInit, init, zeroCommand]
  have d2 : dispatched sampleParams
      (cycle sampleParams sampleExt sampleInit
        (sampleInput [sampleCommand Mode.Takeoff 1] ⟨200, 0, 0⟩ 0.02))
      (sampleInput [] ⟨200, 0, 0⟩ 0.04) = Mode.Land := by
    rw [dispatched_eq, h2]
    simp
  exact ⟨h1, by simp only [modes, d1, d2]⟩

/-! ## Hold -/

/-- The reference after the Hold case. -/
theorem dispatch_Hold_ref (P : Params) (E : Ext) (s : State)
    (h : s.Command_Now.Mode = Mode.Hold) :
    (dispatch P E s).Command_to_gs.Reference_State =
      if s.Command_Last.Mode ≠ Mode.Hold then hold_ref s
      else s.Command_to_gs.Reference_State := by
  simp only [dispatch, h, track_Command_to_gs, hold_entry, copy_header_Command_Last]
  split_ifs <;> simp [hold_ref]

/-- C6. Hold keeps its reference: when two consecutive iterations both
dispatch on Hold, the outgoing `Reference_State` after the second equals the
one after the first, for every input of the second iteration. -/
theorem hold_reference_constant (P : Params) (E : Ext) (s : State) (i1 i2 : Input)
    (h1 : dispatched P s i1 = Mode.Hold)
    (h2 : dispatched P (cycle P E s i1) i2 = Mode.Hold) :
    (cycle P E (cycle P E s i1) i2).Command_to_gs.Reference_State =
      (cycle P E s i1).Command_to_gs.Reference_State := by
  have hl : (cycle P E s i1).Command_Last.Mode = Mode.Hold := by
    rw [cycle_Command_Last_of_ne_trajectory P E s i1 (by simp [h1]), h1]
  rw [cycle_Command_to_gs P E (cycle P E s i1) i2, dispatch_Hold_ref P E _ h2,
    before_switch_Command_Last, before_switch_Command_to_gs]
  simp [hl]

/-- C6 on a run: Hold is commanded twice while the vehicle moves from
(1, 1, 1) to (2, 2, 2); the reference does not change. -/
theorem hold_reference_constant_witness :
    (cycle sampleParams sampleExt
        (cycle sampleParams sampleExt sampleInit
          (sampleInput [sampleCommand Mode.Hold 1] ⟨1, 1, 1⟩ 0.02))
        (sampleInput [sampleCommand Mode.Hold 2] ⟨2, 2, 2⟩ 0.04)).Command_to_gs.Reference_State =
      (cycle sampleParams sampleExt sampleInit
        (sampleInput [sampleCommand Mode.Hold 1] ⟨1, 1, 1⟩ 0.02)).Command_to_gs.Reference_State :=
  have d1 : dispatched sampleParams sampleInit
      (sampleInput [sampleCommand Mode.Hold 1] ⟨1, 1, 1⟩ 0.02) = Mode.Hold := by
    rw [dispatched_eq, check_failsafe_sampleInit]
    simp
  hold_reference_constant sampleParams sampleExt sampleInit _ _ d1
    (by
      rw [dispatched_eq, check_failsafe_sample_cycle _ _ _ _ (by norm_num),
        cycle_Command_Last_of_ne_trajectory _ _ _ _ (by simp [d1]), d1]
      simp)

/-- On entry, Hold takes the vehicle state of the iteration as its reference. -/
theorem hold_entry_reference (P : Params) (E : Ext) (s : State) (i : Input)
    (h : dispatched P s i = Mode.Hold) (hl : s.Command_Last.Mode ≠ Mode.Hold) :
    (cycle P E s i).Command_to_gs.Reference_State = hold_ref (cycle P E s i) := by
  rw [cycle_Command_to_gs, dispatch_Hold_ref P E _ h, before_switch_Command_Last, if_pos hl]
  simp [hold_ref, cycle_DroneState]

/-! ## Trajectory tracking -/

theorem before_switch_dt (P : Params) (s : State) (i : Input) :
    (before_switch P s i).dt = constrain_function2 (i.cur_time - s.last_time) 0.01 0.03 := by
  simp only [before_switch, refresh_state, failsafe_override, land_latch, update_dt, spinOnce_eq]
  split_ifs <;> rfl

theorem trajectory_clock_time (s : State) :
    (trajectory_clock s).time_trajectory =
      (if s.Command_Last.Mode = Mode.Trajectory_Tracking then s.time_trajectory else 0) + s.dt := by
  simp only [trajectory_clock]
  split_ifs <;> simp_all

/-- The effect of the tracking case on the clock, the reference and the
command slot. -/
theorem dispatch_trajectory (P : Params) (E : Ext) (s : State)
    (h : s.Command_Now.Mode = Mode.Trajectory_Tracking) :
    (dispatch P E s).time_trajectory = trajectory_time s ∧
    (dispatch P E s).Command_to_gs.Reference_State =
      E.Circle_trajectory_generation (trajectory_time s) ∧
    (dispatch P E s).Command_Now.Mode =
      if trajectory_time s ≥ E.time_total then Mode.Hold else Mode.Trajectory_Tracking := by
  have ht : (trajectory_clock (copy_header s)).time_trajectory = trajectory_time s := by
    rw [trajectory_clock_time]
    rfl
  simp only [dispatch, h]
  refine ⟨by simp [ht], by simp [ht], ?_⟩
  simp only [trajectory_quit, track_time_trajectory, set_ref_time_trajectory, ht]
  split_ifs <;> simp [h]

/-- C5. Hold entered through trajectory completion does not latch.  The first
iteration dispatches on Trajectory_Tracking and completes the trajectory (the
clock reaches `time_total` = 0.02); no command arrives afterwards and the
second iteration dispatches on Hold with the vehicle at (5, 5, 5).  The
outgoing reference is still the last trajectory point, with its velocity
(1, 0, 0), and not the vehicle position with zero velocity. -/
theorem hold_after_trajectory_not_latched :
    modes sampleParams sampleExt sampleInit
        [sampleInput [sampleCommand Mode.Trajectory_Tracking 1] zeroVec 0.02,
         sampleInput [] ⟨5, 5, 5⟩ 0.04] = [Mode.Trajectory_Tracking, Mode.Hold] ∧
      (run sampleParams sampleExt sampleInit
        [sampleInput [sampleCommand Mode.Trajectory_Tracking 1] zeroVec 0.02,
         sampleInput [] ⟨5, 5, 5⟩ 0.04]).Command_to_gs.Reference_State =
        ⟨XYZ_POS, ⟨0.02, 0, 1⟩, ⟨1, 0, 0⟩, ⟨0, 0, 0⟩, 0⟩ ∧
      (run sampleParams sampleExt sampleInit
        [sampleInput [sampleCommand Mode.Trajectory_Tracking 1] zeroVec 0.02,
         sampleInput [] ⟨5, 5, 5⟩ 0.04])._DroneState.position = ⟨5, 5, 5⟩ := by
  have d1 : dispatched sampleParams sampleInit
      (sampleInput [sampleCommand Mode.Trajectory_Tracking 1] zeroVec 0.02) =
        Mode.Trajectory_Tracking := by
    rw [dispatched_eq, check_failsafe_sampleInit]
    simp
  have ht : trajectory_time (before_switch sampleParams sampleInit
      (sampleInput [sampleCommand Mode.Trajectory_Tracking 1] zeroVec 0.02)) = 0.02 := by
    simp only [trajectory_time, before_switch_Command_Last, before_switch_dt,
      sampleInit_Command_Last_Mode, sampleInput_cur_time, sampleInit_last_time]
    rw [if_neg (by decide)]
    norm_num [constrain_function2]
  obtain ⟨-, hr, hm⟩ := dispatch_trajectory sampleParams sampleExt _ d1
  rw [ht] at hr hm
  have hq : (0.02 : ℚ) ≥ sampleExt.time_total := by norm_num [sampleExt]
  rw [if_pos hq] at hm
  have hm1 : (cycle sampleParams sampleExt sampleInit
      (sampleInput [sampleCommand Mode.Trajectory_Tracking 1] zeroVec 0.02)).Command_Now.Mode =
        Mode.Hold := by
    simp only [cycle, after_switch, hm]
  have hl1 : (cycle sampleParams sampleExt sampleInit
      (sampleInput [sampleCommand Mode.Trajectory_Tracking 1] zeroVec 0.02)).Command_Last.Mode =
        Mode.Hold := by
    simp only [cycle, after_switch, hm]
  have hf : check_failsafe sampleParams (cycle sampleParams sampleExt sampleInit
      (sampleInput [sampleCommand Mode.Trajectory_Tracking 1] zeroVec 0.02)) = 0 :=
    check_failsafe_sample_cycle _ _ _ _ (by norm_num [zeroVec])
  have d2 : dispatched sampleParams (cycle sampleParams sampleExt sampleInit
      (sampleInput [sampleCommand Mode.Trajectory_Tracking 1] zeroVec 0.02))
      (sampleInput [] ⟨5, 5, 5⟩ 0.04) = Mode.Hold := by
    rw [dispatched_eq, hf]
    simp [hl1, hm1]
  refine ⟨by simp only [modes, d1, d2], ?_, ?_⟩
  · simp only [run]
    rw [cycle_Command_to_gs, dispatch_Hold_ref _ _ _ d2, before_switch_Command_Last,
      if_neg (not_not.mpr hl1), before_switch_Command_to_gs, cycle_Command_to_gs, hr]
    rfl
  · simp only [run, cycle_DroneState, before_switch_sample_position]

/-! ## Land -/

/-- The reference after the Land case. -/
theorem dispatch_Land_ref (P : Params) (E : Ext) (s : State)
    (h : s.Command_Now.Mode = Mode.Land) :
    (dispatch P E s).Command_to_gs.Reference_State =
      if s.Command_Last.Mode ≠ Mode.Land then land_ref s
      else s.Command_to_gs.Reference_State := by
  simp only [dispatch, h]
  have hr : (land_entry (copy_header s)).Command_to_gs.Reference_State =
      if s.Command_Last.Mode ≠ Mode.Land then land_ref s
      else s.Command_to_gs.Reference_State := by
    simp only [land_entry, copy_header_Command_Last]
    split_ifs <;> simp [land_ref]
  split_ifs <;> simp_all

/-- With Land recorded, an iteration keeps the reference and records Land. -/
theorem cycle_of_last_Land (P : Params) (E : Ext) (s : State) (i : Input)
    (h : s.Command_Last.Mode = Mode.Land) :
    (cycle P E s i).Command_to_gs.Reference_State = s.Command_to_gs.Reference_State ∧
      (cycle P E s i).Command_Last.Mode = Mode.Land := by
  have hd := dispatched_of_last_Land P s i h
  refine ⟨?_, cycle_last_Land P E s i hd⟩
  rw [cycle_Command_to_gs, dispatch_Land_ref P E _ hd, before_switch_Command_Last,
    before_switch_Command_to_gs]
  simp [h]

theorem run_of_last_Land (P : Params) (E : Ext) (is : List Input) (s : State)
    (h : s.Command_Last.Mode = Mode.Land) :
    (run P E s is).Command_to_gs.Reference_State = s.Command_to_gs.Reference_State := by
  induction is generalizing s with
  | nil => rfl
  | cons i is ih =>
      obtain ⟨h1, h2⟩ := cycle_of_last_Land P E s i h
      simp only [run]
      rw [ih _ h2, h1]

theorem run_Takeoff_position (P : Params) (E : Ext) (is : List Input) (s : State) :
    (run P E s is).Takeoff_position = s.Takeoff_position := by
  induction is generalizing s with
  | nil => rfl
  | cons i is ih => simp only [run, ih, cycle_Takeoff_position]

/-- While no iteration dispatches on Land, Land is not recorded. -/
theorem run_last_ne_Land (P : Params) (E : Ext) (is : List Input) (s : State)
    (h : s.Command_Last.Mode ≠ Mode.Land)
    (hm : ∀ m ∈ modes P E s is, m ≠ Mode.Land) :
    (run P E s is).Command_Last.Mode ≠ Mode.Land := by
  induction is generalizing s with
  | nil => exact h
  | cons i is ih =>
      simp only [modes, List.mem_cons, forall_eq_or_imp] at hm
      simp only [run]
      refine ih _ ?_ hm.2
      rcases cycle_Command_Last_Mode P E s i with h1 | h1
      · rw [h1]
        exact hm.1
      · rw [h1.2]
        decide

/-- C7. The Land reference is latched once.  In a run from the initial state,
let the iteration on input `i` be the first to dispatch on Land (none of the
iterations on `pre` did).  After it, and after any further iterations `post`,
the outgoing reference is XYZ_POS with X and Y of the vehicle in the
iteration on `i`, Z of the takeoff position, zero velocity and acceleration,
and the vehicle yaw of the iteration on `i`. -/
theorem land_reference_latched (P : Params) (E : Ext) (takeoff mocap : Vec3) (begin_time : ℚ)
    (pre : List Input) (i : Input) (post : List Input)
    (hpre : ∀ m ∈ modes P E (init takeoff mocap begin_time) pre, m ≠ Mode.Land)
    (hi : dispatched P (run P E (init takeoff mocap begin_time) pre) i = Mode.Land) :
    (run P E (cycle P E (run P E (init takeoff mocap begin_time) pre) i) post
      ).Command_to_gs.Reference_State =
      { Sub_mode := XYZ_POS,
        position_ref :=
          ⟨(before_switch P (run P E (init takeoff mocap begin_time) pre) i)._DroneState.position.c0,
           (before_switch P (run P E (init takeoff mocap begin_time) pre) i)._DroneState.position.c1,
           takeoff.c2⟩,
        velocity_ref := ⟨0, 0, 0⟩,
        acceleration_ref := ⟨0, 0, 0⟩,
        yaw_ref :=
          (before_switch P (run P E (init takeoff mocap begin_time) pre) i)._DroneState.attitude.c2 } := by
  have hne : (run P E (init takeoff mocap begin_time) pre).Command_Last.Mode ≠ Mode.Land :=
    run_last_ne_Land P E pre _ (by simp [init, zeroCommand]) hpre
  have ht : (run P E (init takeoff mocap begin_time) pre).Takeoff_position = takeoff := by
    rw [run_Takeoff_position]
    rfl
  rw [run_of_last_Land P E post _ (cycle_last_Land P E _ i hi), cycle_Command_to_gs,
    dispatch_Land_ref P E _ hi, before_switch_Command_Last, if_pos hne]
  simp [land_ref, before_switch_Takeoff_position, ht]

/-- C7 on a run: Takeoff, then Land commanded with the vehicle at (1, 2, 3),
then Hold commanded with the vehicle at (7, 8, 9): the reference stays at
(1, 2, takeoff Z). -/
theorem land_reference_latched_witness :
    (run sampleParams sampleExt
      (cycle sampleParams sampleExt
        (run sampleParams sampleExt (init zeroVec zeroVec 0)
          [sampleInput [sampleCommand Mode.Takeoff 1] zeroVec 0.02])
        (sampleInput [sampleCommand Mode.Land 2] ⟨1, 2, 3⟩ 0.04))
      [sampleInput [sampleCommand Mode.Hold 3] ⟨7, 8, 9⟩ 0.06]).Command_to_gs.Reference_State =
      { Sub_mode := XYZ_POS,
        position_ref :=
          ⟨(before_switch sampleParams (run sampleParams sampleExt (init zeroVec zeroVec 0)
              [sampleInput [sampleCommand Mode.Takeoff 1] zeroVec 0.02])
              (sampleInput [sampleCommand Mode.Land 2] ⟨1, 2, 3⟩ 0.04))._DroneState.position.c0,
           (before_switch sampleParams (run sampleParams sampleExt (init zeroVec zeroVec 0)
              [sampleInput [sampleCommand Mode.Takeoff 1] zeroVec 0.02])
              (sampleInput [sampleCommand Mode.Land 2] ⟨1, 2, 3⟩ 0.04))._DroneState.position.c1,
           zeroVec.c2⟩,
        velocity_ref := ⟨0, 0, 0⟩,
        acceleration_ref := ⟨0, 0, 0⟩,
        yaw_ref :=
          (before_switch sampleParams (run sampleParams sampleExt (init zeroVec zeroVec 0)
              [sampleInput [sampleCommand Mode.Takeoff 1] zeroVec 0.02])
              (sampleInput [sampleCommand Mode.Land 2] ⟨1, 2, 3⟩ 0.04))._DroneState.attitude.c2 } :=
  land_reference_latched sampleParams sampleExt zeroVec zeroVec 0
    [sampleInput [sampleCommand Mode.Takeoff 1] zeroVec 0.02]
    (sampleInput [sampleCommand Mode.Land 2] ⟨1, 2, 3⟩ 0.04)
    [sampleInput [sampleCommand Mode.Hold 3] ⟨7, 8, 9⟩ 0.06]
    (by
      have h0 : check_failsafe sampleParams (init zeroVec zeroVec 0) = 0 :=
        check_failsafe_sampleInit
      have hl : (init zeroVec zeroVec 0).Command_Last.Mode = Mode.Idle := rfl
      simp [modes, dispatched_eq, h0, hl])
    (by
      rw [dispatched_eq]
      split_ifs
      · rfl
      · simp)

/-! ## Landing sequencer -/

/-- The control-law chain with a selector that names a law. -/
theorem select_law_of_valid (P : Params) (E : Ext) (s : State)
    (h : 0 ≤ P.switch_ude ∧ P.switch_ude ≤ 4) :
    select_law P E s = invoke_law E P.switch_ude s := by
  obtain ⟨h0, h4⟩ := h
  unfold select_law
  split_ifs with a b c d e
  · rw [a]
  · rw [b]
  · rw [c]
  · rw [d]
  · rw [e]
  · omega

/-- The control-law chain with a selector that names no law. -/
theorem select_law_of_invalid (P : Params) (E : Ext) (s : State)
    (h : P.switch_ude < 0 ∨ 4 < P.switch_ude) : select_law P E s = s := by
  unfold select_law
  split_ifs <;> first | rfl | omega

/-- Within the disarm height the Land case only issues the disarm requests. -/
theorem dispatch_Land_near (P : Params) (E : Ext) (s : State)
    (h : s.Command_Now.Mode = Mode.Land)
    (hz : |s._DroneState.position.c2 - s.Takeoff_position.c2| < P.Disarm_height) :
    dispatch P E s = disarm_requests (land_entry (copy_header s)) := by
  simp only [dispatch, h, land_entry_DroneState, copy_header_DroneState,
    land_entry_Takeoff_position, copy_header_Takeoff_position, if_pos hz]

/-- Outside the disarm height the Land case runs the tracking block. -/
theorem dispatch_Land_far (P : Params) (E : Ext) (s : State)
    (h : s.Command_Now.Mode = Mode.Land)
    (hz : ¬ |s._DroneState.position.c2 - s.Takeoff_position.c2| < P.Disarm_height) :
    dispatch P E s = track P E (land_entry (copy_header s)) := by
  simp only [dispatch, h, land_entry_DroneState, copy_header_DroneState,
    land_entry_Takeoff_position, copy_header_Takeoff_position, if_neg hz]

/-- What the tracking block writes when the selector names a law. -/
theorem track_of_valid (P : Params) (E : Ext) (s : State)
    (h : 0 ≤ P.switch_ude ∧ P.switch_ude ≤ 4) :
    (track P E s).ctrl_calls =
        ⟨P.switch_ude, s._DroneState, s.Command_to_gs.Reference_State, s.dt⟩ :: s.ctrl_calls ∧
      (track P E s).accel_sp =
        E.pos_controller P.switch_ude s.ctrl_calls s._DroneState s.Command_to_gs.Reference_State
          s.dt ∧
      (track P E s)._AttitudeReference =
        { E.thrustToAttitude (track P E s).accel_sp s.Command_to_gs.Reference_State.yaw_ref with
          thrust_sp := (track P E s).accel_sp } ∧
      (track P E s).sent =
        (if P.Use_accel > 0.5 then
            Setpoint.accel (track P E s).accel_sp s.Command_to_gs.Reference_State.yaw_ref
          else Setpoint.attitude (track P E s)._AttitudeReference) :: s.sent := by
  simp only [track, select_law_of_valid P E s h, send_setpoint, invoke_law]
  split_ifs <;> simp

/-- What the tracking block writes when the selector names no law. -/
theorem track_of_invalid (P : Params) (E : Ext) (s : State)
    (h : P.switch_ude < 0 ∨ 4 < P.switch_ude) :
    (track P E s).ctrl_calls = s.ctrl_calls ∧ (track P E s).accel_sp = s.accel_sp := by
  simp only [track, select_law_of_invalid P E s h, send_setpoint]
  split_ifs <;> simp

theorem cycle_outputs (P : Params) (E : Ext) (s : State) (i : Input) :
    (cycle P E s i).ctrl_calls = (dispatch P E (before_switch P s i)).ctrl_calls ∧
    (cycle P E s i).accel_sp = (dispatch P E (before_switch P s i)).accel_sp ∧
    (cycle P E s i)._AttitudeReference = (dispatch P E (before_switch P s i))._AttitudeReference ∧
    (cycle P E s i).sent = (dispatch P E (before_switch P s i)).sent ∧
    (cycle P E s i).requests = (dispatch P E (before_switch P s i)).requests := by
  simp [cycle, after_switch]

/-- C8, as amended.  Let the answer to the controller prompt name one of the
five control laws.  In an iteration that dispatches on Land, a control law is
invoked if and only if |vehicle Z - takeoff Z| >= `Disarm_height`.  Below that
height no law is invoked and `accel_sp`, the attitude reference and the list
of setpoints sent keep their values.  At or above it the selected law is
invoked once on the vehicle state, the outgoing reference and the time step of
the iteration, its result becomes `accel_sp`, the attitude reference is
rebuilt from it and a setpoint is sent. -/
theorem landing_gate (P : Params) (E : Ext) (s : State) (i : Input)
    (hsel : 0 ≤ P.switch_ude ∧ P.switch_ude ≤ 4)
    (hd : dispatched P s i = Mode.Land) :
    ((cycle P E s i).ctrl_calls ≠ s.ctrl_calls ↔
        P.Disarm_height ≤
          |(before_switch P s i)._DroneState.position.c2 - s.Takeoff_position.c2|) ∧
      (|(before_switch P s i)._DroneState.position.c2 - s.Takeoff_position.c2| < P.Disarm_height →
        (cycle P E s i).ctrl_calls = s.ctrl_calls ∧
        (cycle P E s i).accel_sp = s.accel_sp ∧
        (cycle P E s i)._AttitudeReference = s._AttitudeReference ∧
        (cycle P E s i).sent = s.sent) ∧
      (P.Disarm_height ≤
          |(before_switch P s i)._DroneState.position.c2 - s.Takeoff_position.c2| →
        (cycle P E s i).ctrl_calls =
          ⟨P.switch_ude, (before_switch P s i)._DroneState,
            (cycle P E s i).Command_to_gs.Reference_State, (before_switch P s i).dt⟩ ::
            s.ctrl_calls ∧
        (cycle P E s i).accel_sp =
          E.pos_controller P.switch_ude s.ctrl_calls (before_switch P s i)._DroneState
            (cycle P E s i).Command_to_gs.Reference_State (before_switch P s i).dt ∧
        (cycle P E s i)._AttitudeReference =
          { E.thrustToAttitude (cycle P E s i).accel_sp
              (cycle P E s i).Command_to_gs.Reference_State.yaw_ref with
            thrust_sp := (cycle P E s i).accel_sp } ∧
        (cycle P E s i).sent =
          (if P.Use_accel > 0.5 then
              Setpoint.accel (cycle P E s i).accel_sp
                (cycle P E s i).Command_to_gs.Reference_State.yaw_ref
            else Setpoint.attitude (cycle P E s i)._AttitudeReference) :: s.sent) := by
  obtain ⟨c1, c2, c3, c4, -⟩ := cycle_outputs P E s i
  obtain ⟨b1, -, b3, b4, b5, -⟩ := before_switch_logs P s i
  have hT := before_switch_Takeoff_position P s i
  have near : |(before_switch P s i)._DroneState.position.c2 - s.Takeoff_position.c2| <
      P.Disarm_height →
      (cycle P E s i).ctrl_calls = s.ctrl_calls ∧ (cycle P E s i).accel_sp = s.accel_sp ∧
      (cycle P E s i)._AttitudeReference = s._AttitudeReference ∧
      (cycle P E s i).sent = s.sent := by
    intro hz
    rw [← hT] at hz
    rw [c1, c2, c3, c4, dispatch_Land_near P E _ hd hz]
    simp [b1, b3, b4, b5]
  have far : P.Disarm_height ≤
      |(before_switch P s i)._DroneState.position.c2 - s.Takeoff_position.c2| →
      (cycle P E s i).ctrl_calls =
          ⟨P.switch_ude, (before_switch P s i)._DroneState,
            (cycle P E s i).Command_to_gs.Reference_State, (before_switch P s i).dt⟩ ::
            s.ctrl_calls ∧
        (cycle P E s i).accel_sp =
          E.pos_controller P.switch_ude s.ctrl_calls (before_switch P s i)._DroneState
            (cycle P E s i).Command_to_gs.Reference_State (before_switch P s i).dt ∧
        (cycle P E s i)._AttitudeReference =
          { E.thrustToAttitude (cycle P E s i).accel_sp
              (cycle P E s i).Command_to_gs.Reference_State.yaw_ref with
            thrust_sp := (cycle P E s i).accel_sp } ∧
        (cycle P E s i).sent =
          (if P.Use_accel > 0.5 then
              Setpoint.accel (cycle P E s i).accel_sp
                (cycle P E s i).Command_to_gs.Reference_State.yaw_ref
            else Setpoint.attitude (cycle P E s i)._AttitudeReference) :: s.sent := by
    intro hz
    rw [← hT] at hz
    have hfar := dispatch_Land_far P E _ hd (not_lt.mpr hz)
    obtain ⟨t1, t2, t3, t4⟩ := track_of_valid P E (land_entry (copy_header (before_switch P s i))) hsel
    rw [c1, c2, c3, c4, cycle_Command_to_gs, hfar, track_Command_to_gs]
    refine ⟨?_, ?_, ?_, ?_⟩
    · rw [t1]
      simp [b1]
    · rw [t2]
      simp [b1]
    · exact t3
    · rw [t4]
      simp [b3]
  refine ⟨⟨fun hne => ?_, fun hz => ?_⟩, near, far⟩
  · by_contra hlt
    exact hne (near (not_le.mp hlt)).1
  · rw [(far hz).1]
    exact List.cons_ne_self _ _

/-- C8, as amended, on sample data: Land at height 3 above the takeoff
position invokes the control law. -/
theorem landing_gate_witness :
    (cycle sampleParams sampleExt sampleInit
        (sampleInput [sampleCommand Mode.Land 1] ⟨0, 0, 3⟩ 0.02)).ctrl_calls ≠
      sampleInit.ctrl_calls :=
  (landing_gate sampleParams sampleExt sampleInit
      (sampleInput [sampleCommand Mode.Land 1] ⟨0, 0, 3⟩ 0.02)
      (by decide)
      (by
        rw [dispatched_eq, check_failsafe_sampleInit]
        simp)).1.mpr
    (by
      rw [before_switch_sample_position]
      norm_num [sampleParams, sampleInit, init, zeroVec])

/-- C8 as stated fails when the answer to the controller prompt is not 0..4:
an iteration dispatches on Land at height 3 above the takeoff position, which
is at least `Disarm_height` = 0.15, and no control law is invoked. -/
theorem landing_gate_without_law :
    dispatched sampleParamsNoLaw sampleInit
        (sampleInput [sampleCommand Mode.Land 1] ⟨0, 0, 3⟩ 0.02) = Mode.Land ∧
      sampleParamsNoLaw.Disarm_height ≤
        |(before_switch sampleParamsNoLaw sampleInit
            (sampleInput [sampleCommand Mode.Land 1] ⟨0, 0, 3⟩ 0.02))._DroneState.position.c2 -
          sampleInit.Takeoff_position.c2| ∧
      (cycle sampleParamsNoLaw sampleExt sampleInit
        (sampleInput [sampleCommand Mode.Land 1] ⟨0, 0, 3⟩ 0.02)).ctrl_calls =
        sampleInit.ctrl_calls := by
  have hd : dispatched sampleParamsNoLaw sampleInit
      (sampleInput [sampleCommand Mode.Land 1] ⟨0, 0, 3⟩ 0.02) = Mode.Land := by
    rw [dispatched_eq]
    simp
  have hp : (before_switch sampleParamsNoLaw sampleInit
      (sampleInput [sampleCommand Mode.Land 1] ⟨0, 0, 3⟩ 0.02))._DroneState.position =
        ⟨0, 0, 3⟩ := by
    simp [before_switch, refresh_state, sampleParamsNoLaw, sampleParams, sampleInput, sampleDrone]
  have hz : sampleParamsNoLaw.Disarm_height ≤
      |(before_switch sampleParamsNoLaw sampleInit
          (sampleInput [sampleCommand Mode.Land 1] ⟨0, 0, 3⟩ 0.02))._DroneState.position.c2 -
        sampleInit.Takeoff_position.c2| := by
    rw [hp]
    norm_num [sampleParamsNoLaw, sampleParams, sampleInit, init, zeroVec]
  refine ⟨hd, hz, ?_⟩
  rw [← before_switch_Takeoff_position sampleParamsNoLaw sampleInit
    (sampleInput [sampleCommand Mode.Land 1] ⟨0, 0, 3⟩ 0.02)] at hz
  rw [(cycle_outputs _ _ _ _).1, dispatch_Land_far _ _ _ hd (not_lt.mpr hz),
    (track_of_invalid _ _ _ (Or.inr (by decide))).1]
  simp [(before_switch_logs _ _ _).1]

/-! ## Move_Body -/

/-- The reference after the Move_Body case. -/
theorem dispatch_Move_Body_ref (P : Params) (E : Ext) (s : State)
    (h : s.Command_Now.Mode = Mode.Move_Body) :
    (dispatch P E s).Command_to_gs.Reference_State = move_body_ref E s := by
  simp only [dispatch, h, track_Command_to_gs, set_ref_Reference_State]
  rfl

/-- Without a larger identifier the conversion is skipped. -/
theorem move_body_ref_of_le (E : Ext) (s : State)
    (h : s.Command_Now.Command_ID ≤ s.Command_Last.Command_ID) :
    move_body_ref E s = s.Command_to_gs.Reference_State := by
  unfold move_body_ref
  rw [if_neg (by omega)]

/-- The command recorded by an iteration that is not a tracking one is the
command the switch saw. -/
theorem cycle_Command_Last (P : Params) (E : Ext) (s : State) (i : Input)
    (h : dispatched P s i ≠ Mode.Trajectory_Tracking) :
    (cycle P E s i).Command_Last = (before_switch P s i).Command_Now := by
  simp [cycle, after_switch, dispatch_Command_Now P E _ h]

/-- C9. Move_Body is edge-triggered on the command identifier.  In an
iteration that dispatches on Move_Body, if the identifier seen by the switch
is not greater than the recorded one, the outgoing `Reference_State` is the
one left by the iteration before; and if the next iteration also dispatches on
Move_Body with the same identifier, its outgoing `Reference_State` equals
that of this iteration. -/
theorem move_body_edge_triggered (P : Params) (E : Ext) (s : State) (i : Input)
    (hd : dispatched P s i = Mode.Move_Body) :
    ((before_switch P s i).Command_Now.Command_ID ≤ s.Command_Last.Command_ID →
        (cycle P E s i).Command_to_gs.Reference_State = s.Command_to_gs.Reference_State) ∧
      ∀ i2 : Input, dispatched P (cycle P E s i) i2 = Mode.Move_Body →
        (before_switch P (cycle P E s i) i2).Command_Now.Command_ID =
          (before_switch P s i).Command_Now.Command_ID →
        (cycle P E (cycle P E s i) i2).Command_to_gs.Reference_State =
          (cycle P E s i).Command_to_gs.Reference_State := by
  have frame : ∀ (s : State) (i : Input), dispatched P s i = Mode.Move_Body →
      (before_switch P s i).Command_Now.Command_ID ≤ s.Command_Last.Command_ID →
      (cycle P E s i).Command_to_gs.Reference_State = s.Command_to_gs.Reference_State := by
    intro s i hd hle
    rw [cycle_Command_to_gs, dispatch_Move_Body_ref P E _ hd, move_body_ref_of_le,
      before_switch_Command_to_gs]
    rw [before_switch_Command_Last]
    exact hle
  refine ⟨frame s i hd, fun i2 hd2 hid => frame _ i2 hd2 ?_⟩
  rw [hid, cycle_Command_Last P E s i (by simp [hd])]

/-- C9 on a run: a body-frame command with identifier 1 is received twice
while the vehicle moves; the second iteration leaves the reference alone. -/
theorem move_body_edge_triggered_witness :
    (cycle sampleParams sampleExt
        (cycle sampleParams sampleExt sampleInit (sampleInput [sampleZVelCommand] ⟨0, 0, 3⟩ 0.02))
        (sampleInput [sampleZVelCommand] ⟨1, 1, 4⟩ 0.04)).Command_to_gs.Reference_State =
      (cycle sampleParams sampleExt sampleInit
        (sampleInput [sampleZVelCommand] ⟨0, 0, 3⟩ 0.02)).Command_to_gs.Reference_State :=
  have d1 : dispatched sampleParams sampleInit (sampleInput [sampleZVelCommand] ⟨0, 0, 3⟩ 0.02) =
      Mode.Move_Body := by
    rw [dispatched_eq, check_failsafe_sampleInit]
    simp [sampleZVelCommand]
  (move_body_edge_triggered sampleParams sampleExt sampleInit
      (sampleInput [sampleZVelCommand] ⟨0, 0, 3⟩ 0.02) d1).2
    (sampleInput [sampleZVelCommand] ⟨1, 1, 4⟩ 0.04)
    (by
      rw [dispatched_eq, check_failsafe_sample_cycle _ _ _ _ (by norm_num),
        cycle_Command_Last_of_ne_trajectory _ _ _ _ (by simp [d1]), d1]
      simp [sampleZVelCommand])
    (by simp [before_switch_Command_ID])

/-- The Z block of Move_Body ends with the position branch whatever the
sub-mode bit is. -/
theorem move_body_ref_z (E : Ext) (s : State)
    (h : s.Command_Now.Command_ID > s.Command_Last.Command_ID) :
    (move_body_ref E s).position_ref.c2 =
        s._DroneState.position.c2 + s.Command_Now.Reference_State.position_ref.c2 ∧
      (move_body_ref E s).velocity_ref.c2 = 0 := by
  unfold move_body_ref
  rw [if_pos h]
  simp [move_body_yaw_acc, move_body_z]

/-- C10. The Z velocity branch of Move_Body is overwritten.  A body-frame
command with a new identifier and the Z velocity bit set (sub-mode `0b01`,
Z velocity 0.5, Z position field 2) is received with the vehicle at height 3.
The outgoing reference has Z velocity 0 and Z position 3 + 2 = 5, not Z
velocity 0.5 and Z position 0. -/
theorem move_body_z_velocity_overwritten :
    dispatched sampleParams sampleInit (sampleInput [sampleZVelCommand] ⟨0, 0, 3⟩ 0.02) =
        Mode.Move_Body ∧
      (before_switch sampleParams sampleInit
          (sampleInput [sampleZVelCommand] ⟨0, 0, 3⟩ 0.02)).Command_Now.Command_ID >
        sampleInit.Command_Last.Command_ID ∧
      sampleZVelCommand.Reference_State.Sub_mode &&& 0b01 ≠ 0 ∧
      sampleZVelCommand.Reference_State.velocity_ref.c2 = 0.5 ∧
      (cycle sampleParams sampleExt sampleInit
        (sampleInput [sampleZVelCommand] ⟨0, 0, 3⟩ 0.02)).Command_to_gs.Reference_State.velocity_ref.c2
          = 0 ∧
      (cycle sampleParams sampleExt sampleInit
        (sampleInput [sampleZVelCommand] ⟨0, 0, 3⟩ 0.02)).Command_to_gs.Reference_State.position_ref.c2
          = 5 := by
  have d1 : dispatched sampleParams sampleInit (sampleInput [sampleZVelCommand] ⟨0, 0, 3⟩ 0.02) =
      Mode.Move_Body := by
    rw [dispatched_eq, check_failsafe_sampleInit]
    simp [sampleZVelCommand]
  have hid : (before_switch sampleParams sampleInit
      (sampleInput [sampleZVelCommand] ⟨0, 0, 3⟩ 0.02)).Command_Now.Command_ID >
        sampleInit.Command_Last.Command_ID := by
    rw [before_switch_Command_ID]
    simp [sampleZVelCommand, sampleInit, init, zeroCommand]
  have hc : (before_switch sampleParams sampleInit
      (sampleInput [sampleZVelCommand] ⟨0, 0, 3⟩ 0.02)).Command_Now.Reference_State =
        sampleZVelCommand.Reference_State := by
    simp only [before_switch, refresh_state, failsafe_override, land_latch, update_dt,
      spinOnce_eq]
    split_ifs <;> simp
  have hid2 : (before_switch sampleParams sampleInit
      (sampleInput [sampleZVelCommand] ⟨0, 0, 3⟩ 0.02)).Command_Now.Command_ID >
        (before_switch sampleParams sampleInit
          (sampleInput [sampleZVelCommand] ⟨0, 0, 3⟩ 0.02)).Command_Last.Command_ID := by
    rw [before_switch_Command_Last]
    exact hid
  obtain ⟨hz1, hz2⟩ := move_body_ref_z sampleExt _ hid2
  refine ⟨d1, hid, by decide, by norm_num [sampleZVelCommand], ?_, ?_⟩
  · rw [cycle_Command_to_gs, dispatch_Move_Body_ref _ _ _ d1, hz2]
  · rw [cycle_Command_to_gs, dispatch_Move_Body_ref _ _ _ d1, hz1, before_switch_sample_position,
      hc]
    norm_num [sampleZVelCommand]

/-- The payload of the command the switch sees is that of the command slot. -/
theorem before_switch_Reference_State (P : Params) (s : State) (i : Input) :
    (before_switch P s i).Command_Now.Reference_State =
      (i.commands.getLast?.getD s.Command_Now).Reference_State := by
  simp only [before_switch, refresh_state, failsafe_override, land_latch, update_dt, spinOnce_eq]
  split_ifs <;> rfl

/-- The XY block of Move_Body, as it shows in the outgoing reference. -/
theorem move_body_ref_xy (E : Ext) (s : State)
    (h : s.Command_Now.Command_ID > s.Command_Last.Command_ID) :
    (s.Command_Now.Reference_State.Sub_mode &&& 0b10 ≠ 0 →
        (move_body_ref E s).velocity_ref.c0 =
            (E.rotation_yaw s._DroneState.attitude.c2
              (s.Command_Now.Reference_State.velocity_ref.c0,
               s.Command_Now.Reference_State.velocity_ref.c1)).1 ∧
          (move_body_ref E s).velocity_ref.c1 =
            (E.rotation_yaw s._DroneState.attitude.c2
              (s.Command_Now.Reference_State.velocity_ref.c0,
               s.Command_Now.Reference_State.velocity_ref.c1)).2 ∧
          (move_body_ref E s).position_ref.c0 = 0 ∧
          (move_body_ref E s).position_ref.c1 = 0) ∧
      (s.Command_Now.Reference_State.Sub_mode &&& 0b10 = 0 →
        (move_body_ref E s).position_ref.c0 =
            s._DroneState.position.c0 +
              (E.rotation_yaw s._DroneState.attitude.c2
                (s.Command_Now.Reference_State.position_ref.c0,
                 s.Command_Now.Reference_State.position_ref.c1)).1 ∧
          (move_body_ref E s).position_ref.c1 =
            s._DroneState.position.c1 +
              (E.rotation_yaw s._DroneState.attitude.c2
                (s.Command_Now.Reference_State.position_ref.c0,
                 s.Command_Now.Reference_State.position_ref.c1)).2 ∧
          (move_body_ref E s).velocity_ref.c0 = 0 ∧
          (move_body_ref E s).velocity_ref.c1 = 0) := by
  unfold move_body_ref
  rw [if_pos h]
  constructor
  · intro hb
    simp only [move_body_yaw_acc, move_body_z, move_body_xy, if_pos hb]
    split_ifs <;> simp
  · intro hb
    simp only [move_body_yaw_acc, move_body_z, move_body_xy, if_neg (not_not.mpr hb)]
    split_ifs <;> simp

/-- The last block of Move_Body, as it shows in the outgoing reference. -/
theorem move_body_ref_yaw_acc (E : Ext) (s : State)
    (h : s.Command_Now.Command_ID > s.Command_Last.Command_ID) :
    (move_body_ref E s).acceleration_ref =
        ⟨(E.rotation_yaw s._DroneState.attitude.c2
            (s.Command_Now.Reference_State.acceleration_ref.c0,
             s.Command_Now.Reference_State.acceleration_ref.c1)).1,
         (E.rotation_yaw s._DroneState.attitude.c2
            (s.Command_Now.Reference_State.acceleration_ref.c0,
             s.Command_Now.Reference_State.acceleration_ref.c1)).2,
         s.Command_Now.Reference_State.acceleration_ref.c2⟩ ∧
      (move_body_ref E s).yaw_ref =
        s._DroneState.attitude.c2 + s.Command_Now.Reference_State.yaw_ref := by
  unfold move_body_ref
  rw [if_pos h]
  simp [move_body_yaw_acc]

/-- The identifier comparison of line 341, on the state the switch sees. -/
theorem before_switch_id_gt (P : Params) (s : State) (i : Input)
    (h : (before_switch P s i).Command_Now.Command_ID > s.Command_Last.Command_ID) :
    (before_switch P s i).Command_Now.Command_ID >
      (before_switch P s i).Command_Last.Command_ID := by
  rw [before_switch_Command_Last]
  exact h

/-- C11. Move_Body XY policy.  In an iteration that dispatches on Move_Body
with an identifier greater than the recorded one, `rotation_yaw` being applied
at the current vehicle yaw: if the XY bit `0b10` of the command sub-mode is
set, the outgoing XY velocity is the rotated command XY velocity and the
outgoing XY position is (0, 0); otherwise the outgoing XY position is the
current vehicle XY plus the rotated command XY position and the outgoing XY
velocity is (0, 0). -/
theorem move_body_xy_policy (P : Params) (E : Ext) (s : State) (i : Input)
    (hd : dispatched P s i = Mode.Move_Body)
    (hid : (before_switch P s i).Command_Now.Command_ID > s.Command_Last.Command_ID) :
    ((before_switch P s i).Command_Now.Reference_State.Sub_mode &&& 0b10 ≠ 0 →
        (cycle P E s i).Command_to_gs.Reference_State.velocity_ref.c0 =
            (E.rotation_yaw (before_switch P s i)._DroneState.attitude.c2
              ((before_switch P s i).Command_Now.Reference_State.velocity_ref.c0,
               (before_switch P s i).Command_Now.Reference_State.velocity_ref.c1)).1 ∧
          (cycle P E s i).Command_to_gs.Reference_State.velocity_ref.c1 =
            (E.rotation_yaw (before_switch P s i)._DroneState.attitude.c2
              ((before_switch P s i).Command_Now.Reference_State.velocity_ref.c0,
               (before_switch P s i).Command_Now.Reference_State.velocity_ref.c1)).2 ∧
          (cycle P E s i).Command_to_gs.Reference_State.position_ref.c0 = 0 ∧
          (cycle P E s i).Command_to_gs.Reference_State.position_ref.c1 = 0) ∧
      ((before_switch P s i).Command_Now.Reference_State.Sub_mode &&& 0b10 = 0 →
        (cycle P E s i).Command_to_gs.Reference_State.position_ref.c0 =
            (before_switch P s i)._DroneState.position.c0 +
              (E.rotation_yaw (before_switch P s i)._DroneState.attitude.c2
                ((before_switch P s i).Command_Now.Reference_State.position_ref.c0,
                 (before_switch P s i).Command_Now.Reference_State.position_ref.c1)).1 ∧
          (cycle P E s i).Command_to_gs.Reference_State.position_ref.c1 =
            (before_switch P s i)._DroneState.position.c1 +
              (E.rotation_yaw (before_switch P s i)._DroneState.attitude.c2
                ((before_switch P s i).Command_Now.Reference_State.position_ref.c0,
                 (before_switch P s i).Command_Now.Reference_State.position_ref.c1)).2 ∧
          (cycle P E s i).Command_to_gs.Reference_State.velocity_ref.c0 = 0 ∧
          (cycle P E s i).Command_to_gs.Reference_State.velocity_ref.c1 = 0) := by
  rw [cycle_Command_to_gs, dispatch_Move_Body_ref P E _ hd]
  exact move_body_ref_xy E _ (before_switch_id_gt P s i hid)

/-- The sample body-frame commands are dispatched on in the first iteration
and carry a new identifier. -/
theorem sample_move_body_first (c : ControlCommand) (pos : Vec3) (t : ℚ)
    (hm : c.Mode = Mode.Move_Body) (hc : c.Command_ID = 1) :
    dispatched sampleParams sampleInit (sampleInput [c] pos t) = Mode.Move_Body ∧
      (before_switch sampleParams sampleInit (sampleInput [c] pos t)).Command_Now.Command_ID >
        sampleInit.Command_Last.Command_ID := by
  constructor
  · rw [dispatched_eq, check_failsafe_sampleInit]
    simp [hm]
  · rw [before_switch_Command_ID]
    simp [hc, sampleInit, init, zeroCommand]

/-- C11 on sample data: a command with the XY velocity bit set yields zero as
outgoing X position. -/
theorem move_body_xy_policy_witness :
    (cycle sampleParams sampleExt sampleInit
      (sampleInput [sampleXYVelCommand] ⟨1, 2, 3⟩ 0.02)).Command_to_gs.Reference_State.position_ref.c0
        = 0 :=
  ((move_body_xy_policy sampleParams sampleExt sampleInit
      (sampleInput [sampleXYVelCommand] ⟨1, 2, 3⟩ 0.02)
      (sample_move_body_first _ _ _ rfl rfl).1
      (sample_move_body_first _ _ _ rfl rfl).2).1
    (by
      rw [before_switch_Reference_State]
      simp [sampleXYVelCommand])).2.2.1

/-- C20. Move_Body acceleration and yaw.  In an iteration that dispatches on
Move_Body with an identifier greater than the recorded one, whatever the
sub-mode bits are, the outgoing XY acceleration is `rotation_yaw` at the
current vehicle yaw of the command XY acceleration, the outgoing Z
acceleration is the command Z acceleration, and the outgoing yaw is the
current vehicle yaw plus the command yaw. -/
theorem move_body_acceleration_yaw (P : Params) (E : Ext) (s : State) (i : Input)
    (hd : dispatched P s i = Mode.Move_Body)
    (hid : (before_switch P s i).Command_Now.Command_ID > s.Command_Last.Command_ID) :
    (cycle P E s i).Command_to_gs.Reference_State.acceleration_ref =
        ⟨(E.rotation_yaw (before_switch P s i)._DroneState.attitude.c2
            ((before_switch P s i).Command_Now.Reference_State.acceleration_ref.c0,
             (before_switch P s i).Command_Now.Reference_State.acceleration_ref.c1)).1,
         (E.rotation_yaw (before_switch P s i)._DroneState.attitude.c2
            ((before_switch P s i).Command_Now.Reference_State.acceleration_ref.c0,
             (before_switch P s i).Command_Now.Reference_State.acceleration_ref.c1)).2,
         (before_switch P s i).Command_Now.Reference_State.acceleration_ref.c2⟩ ∧
      (cycle P E s i).Command_to_gs.Reference_State.yaw_ref =
        (before_switch P s i)._DroneState.attitude.c2 +
          (before_switch P s i).Command_Now.Reference_State.yaw_ref := by
  rw [cycle_Command_to_gs, dispatch_Move_Body_ref P E _ hd]
  exact move_body_ref_yaw_acc E _ (before_switch_id_gt P s i hid)

/-- C20 on sample data: the command yaw offset 0.1 is added to the vehicle
yaw. -/
theorem move_body_acceleration_yaw_witness :
    (cycle sampleParams sampleExt sampleInit
        (sampleInput [sampleXYVelCommand] ⟨1, 2, 3⟩ 0.02)).Command_to_gs.Reference_State.yaw_ref =
      (before_switch sampleParams sampleInit
          (sampleInput [sampleXYVelCommand] ⟨1, 2, 3⟩ 0.02))._DroneState.attitude.c2 +
        (before_switch sampleParams sampleInit
          (sampleInput [sampleXYVelCommand] ⟨1, 2, 3⟩ 0.02)).Command_Now.Reference_State.yaw_ref :=
  (move_body_acceleration_yaw sampleParams sampleExt sampleInit
      (sampleInput [sampleXYVelCommand] ⟨1, 2, 3⟩ 0.02)
      (sample_move_body_first _ _ _ rfl rfl).1
      (sample_move_body_first _ _ _ rfl rfl).2).2

/-! ## Takeoff -/

/-- The reference after the Takeoff case. -/
theorem dispatch_Takeoff_ref (P : Params) (E : Ext) (s : State)
    (h : s.Command_Now.Mode = Mode.Takeoff) :
    (dispatch P E s).Command_to_gs.Reference_State = takeoff_ref P s := by
  simp only [dispatch, h, track_Command_to_gs, set_ref_Reference_State]
  rfl

/-- C15. Takeoff reference.  In an iteration that dispatches on Takeoff the
outgoing reference is XYZ_POS, X and Y of the takeoff position, Z of the
takeoff position plus `Takeoff_height`, zero velocity and acceleration, and
the vehicle yaw of this iteration; neither the payload of the command nor the
previous outgoing reference enters it. -/
theorem takeoff_reference (P : Params) (E : Ext) (s : State) (i : Input)
    (hd : dispatched P s i = Mode.Takeoff) :
    (cycle P E s i).Command_to_gs.Reference_State =
      { Sub_mode := XYZ_POS,
        position_ref :=
          ⟨s.Takeoff_position.c0, s.Takeoff_position.c1, s.Takeoff_position.c2 + P.Takeoff_height⟩,
        velocity_ref := ⟨0, 0, 0⟩,
        acceleration_ref := ⟨0, 0, 0⟩,
        yaw_ref := (before_switch P s i)._DroneState.attitude.c2 } := by
  rw [cycle_Command_to_gs, dispatch_Takeoff_ref P E _ hd]
  simp [takeoff_ref, before_switch_Takeoff_position]

/-- C15 on sample data: Takeoff commanded in the first iteration. -/
theorem takeoff_reference_witness :
    (cycle sampleParams sampleExt sampleInit
        (sampleInput [sampleCommand Mode.Takeoff 1] ⟨0, 0, 0⟩ 0.02)).Command_to_gs.Reference_State =
      { Sub_mode := XYZ_POS,
        position_ref :=
          ⟨sampleInit.Takeoff_position.c0, sampleInit.Takeoff_position.c1,
           sampleInit.Takeoff_position.c2 + sampleParams.Takeoff_height⟩,
        velocity_ref := ⟨0, 0, 0⟩,
        acceleration_ref := ⟨0, 0, 0⟩,
        yaw_ref :=
          (before_switch sampleParams sampleInit
            (sampleInput [sampleCommand Mode.Takeoff 1] ⟨0, 0, 0⟩ 0.02))._DroneState.attitude.c2 } :=
  takeoff_reference sampleParams sampleExt sampleInit _
    (by
      rw [dispatched_eq, check_failsafe_sampleInit]
      simp)

/-! ## The trajectory clock -/

/-- The clock value of a tracking iteration in terms of the state the
iteration starts from and its input. -/
theorem trajectory_time_before_switch (P : Params) (s : State) (i : Input) :
    trajectory_time (before_switch P s i) =
      (if s.Command_Last.Mode = Mode.Trajectory_Tracking then s.time_trajectory else 0) +
        constrain_function2 (i.cur_time - s.last_time) 0.01 0.03 := by
  simp only [trajectory_time, before_switch_Command_Last, before_switch_dt,
    (before_switch_logs P s i).2.2.2.2.2]

theorem cycle_time_trajectory (P : Params) (E : Ext) (s : State) (i : Input) :
    (cycle P E s i).time_trajectory = (dispatch P E (before_switch P s i)).time_trajectory := by
  simp [cycle, after_switch]

theorem cycle_Command_Now (P : Params) (E : Ext) (s : State) (i : Input) :
    (cycle P E s i).Command_Now = (dispatch P E (before_switch P s i)).Command_Now := by
  simp [cycle, after_switch]

theorem cycle_Command_Last_eq (P : Params) (E : Ext) (s : State) (i : Input) :
    (cycle P E s i).Command_Last = (dispatch P E (before_switch P s i)).Command_Now := by
  simp [cycle, after_switch]

/-- C13. Trajectory clock.  In an iteration that dispatches on
Trajectory_Tracking the clock becomes t' = dt when the recorded mode is not
Trajectory_Tracking and t' = t + dt when it is, t being the clock left by the
iteration before and dt the result of `constrain_function2` on the time
difference of this iteration; the outgoing `Reference_State` is the result of
the generator at t'. -/
theorem trajectory_clock_query (P : Params) (E : Ext) (s : State) (i : Input)
    (hd : dispatched P s i = Mode.Trajectory_Tracking) :
    (cycle P E s i).time_trajectory =
        (if s.Command_Last.Mode = Mode.Trajectory_Tracking then
            s.time_trajectory + constrain_function2 (i.cur_time - s.last_time) 0.01 0.03
          else constrain_function2 (i.cur_time - s.last_time) 0.01 0.03) ∧
      (cycle P E s i).Command_to_gs.Reference_State =
        E.Circle_trajectory_generation (cycle P E s i).time_trajectory := by
  obtain ⟨h1, h2, -⟩ := dispatch_trajectory P E _ hd
  rw [cycle_time_trajectory, cycle_Command_to_gs, h1, h2, trajectory_time_before_switch]
  refine ⟨?_, rfl⟩
  split_ifs <;> simp

/-- C13 on sample data: tracking entered in the first iteration with a time
difference of 0.02 queries the generator at 0.02. -/
theorem trajectory_clock_query_witness :
    (cycle sampleParams sampleExt sampleInit
      (sampleInput [sampleCommand Mode.Trajectory_Tracking 1] zeroVec 0.02)).time_trajectory = 0.02 := by
  have h := (trajectory_clock_query sampleParams sampleExt sampleInit
    (sampleInput [sampleCommand Mode.Trajectory_Tracking 1] zeroVec 0.02)
    (by
      rw [dispatched_eq, check_failsafe_sampleInit]
      simp)).1
  rw [h, sampleInit_Command_Last_Mode, if_neg (by decide), sampleInput_cur_time,
    sampleInit_last_time]
  norm_num [constrain_function2]

/-- C12. Trajectory self-termination.  A tracking iteration leaves Hold in
the command slot when the clock it has just advanced is at least
`time_total`, and leaves Trajectory_Tracking there otherwise.  Hence, if the
following iteration receives no command and its geofence check returns 0, it
dispatches on Hold when the clock has reached `time_total` and on
Trajectory_Tracking when it has not. -/
theorem trajectory_self_termination (P : Params) (E : Ext) (s : State) (i : Input)
    (hd : dispatched P s i = Mode.Trajectory_Tracking) :
    (cycle P E s i).Command_Now.Mode =
        (if (cycle P E s i).time_trajectory ≥ E.time_total then Mode.Hold
          else Mode.Trajectory_Tracking) ∧
      ∀ i2 : Input, i2.commands = [] →
        check_failsafe P (land_latch (update_dt (spinOnce (cycle P E s i) i2) i2)) = 0 →
        ((cycle P E s i).time_trajectory ≥ E.time_total →
            dispatched P (cycle P E s i) i2 = Mode.Hold) ∧
          ((cycle P E s i).time_trajectory < E.time_total →
            dispatched P (cycle P E s i) i2 = Mode.Trajectory_Tracking) := by
  obtain ⟨h1, -, h3⟩ := dispatch_trajectory P E _ hd
  have hm : (cycle P E s i).Command_Now.Mode =
      (if (cycle P E s i).time_trajectory ≥ E.time_total then Mode.Hold
        else Mode.Trajectory_Tracking) := by
    rw [cycle_Command_Now, cycle_time_trajectory, h1, h3]
  have hl : (cycle P E s i).Command_Last.Mode = (cycle P E s i).Command_Now.Mode := by
    rw [cycle_Command_Last_eq, cycle_Command_Now]
  refine ⟨hm, fun i2 hc hf => ?_⟩
  rw [check_failsafe_site] at hf
  constructor
  · intro ht
    rw [if_pos ht] at hm
    rw [dispatched_eq, hf, hl, hm, hc]
    simp [hm]
  · intro ht
    rw [if_neg (not_le.mpr ht)] at hm
    rw [dispatched_eq, hf, hl, hm, hc]
    simp [hm]

/-- Tracking entered in the first sample iteration with a time difference of
0.02 brings the clock to 0.02. -/
theorem sample_tracking_clock :
    (cycle sampleParams sampleExt sampleInit
      (sampleInput [sampleCommand Mode.Trajectory_Tracking 1] zeroVec 0.02)).time_trajectory =
        0.02 := by
  have hd : dispatched sampleParams sampleInit
      (sampleInput [sampleCommand Mode.Trajectory_Tracking 1] zeroVec 0.02) =
        Mode.Trajectory_Tracking := by
    rw [dispatched_eq, check_failsafe_sampleInit]
    simp
  rw [cycle_time_trajectory, (dispatch_trajectory sampleParams sampleExt _ hd).1,
    trajectory_time_before_switch, sampleInit_Command_Last_Mode, if_neg (by decide),
    sampleInput_cur_time, sampleInit_last_time]
  norm_num [constrain_function2]

/-- C12 on sample data: with `time_total` = 0.02, tracking entered with a time
difference of 0.02 completes the trajectory, and the following iteration,
which receives no command with the vehicle inside the fence, dispatches on
Hold. -/
theorem trajectory_self_termination_witness :
    dispatched sampleParams
        (cycle sampleParams sampleExt sampleInit
          (sampleInput [sampleCommand Mode.Trajectory_Tracking 1] zeroVec 0.02))
        (sampleInput [] ⟨1, 0, 1⟩ 0.04) = Mode.Hold :=
  ((trajectory_self_termination sampleParams sampleExt sampleInit
      (sampleInput [sampleCommand Mode.Trajectory_Tracking 1] zeroVec 0.02)
      (by
        rw [dispatched_eq, check_failsafe_sampleInit]
        simp)).2
    (sampleInput [] ⟨1, 0, 1⟩ 0.04) rfl
    (by
      rw [check_failsafe_site]
      exact check_failsafe_sample_cycle _ _ _ _ (by norm_num [zeroVec]))).1
    (by
      rw [sample_tracking_clock]
      norm_num [sampleExt])

/-! ## The time step -/

theorem dispatch_dt (P : Params) (E : Ext) (s : State) : (dispatch P E s).dt = s.dt := by
  unfold dispatch
  split <;> try simp
  split_ifs <;> simp

theorem dispatch_last_time (P : Params) (E : Ext) (s : State) :
    (dispatch P E s).last_time = s.last_time := by
  unfold dispatch
  split <;> try simp
  split_ifs <;> simp

theorem before_switch_last_time (P : Params) (s : State) (i : Input) :
    (before_switch P s i).last_time = i.cur_time := by
  simp only [before_switch, refresh_state, failsafe_override, land_latch, update_dt, spinOnce_eq]
  split_ifs <;> rfl

/-- The tracking block invokes at most one control law, with the time step of
the state it runs on. -/
theorem track_ctrl_calls_cases (P : Params) (E : Ext) (s : State) :
    (track P E s).ctrl_calls = s.ctrl_calls ∨
      (track P E s).ctrl_calls =
        ⟨P.switch_ude, s._DroneState, s.Command_to_gs.Reference_State, s.dt⟩ :: s.ctrl_calls := by
  by_cases h : 0 ≤ P.switch_ude ∧ P.switch_ude ≤ 4
  · exact Or.inr (track_of_valid P E s h).1
  · refine Or.inl (track_of_invalid P E s ?_).1
    omega

/-- The switch invokes at most one control law, with the time step of the
state it runs on. -/
theorem dispatch_ctrl_calls_cases (P : Params) (E : Ext) (s : State) :
    (dispatch P E s).ctrl_calls = s.ctrl_calls ∨
      ∃ (d : DroneState) (r : ReferenceState),
        (dispatch P E s).ctrl_calls = ⟨P.switch_ude, d, r, s.dt⟩ :: s.ctrl_calls := by
  have key : ∀ t : State, t.ctrl_calls = s.ctrl_calls → t.dt = s.dt →
      (track P E t).ctrl_calls = s.ctrl_calls ∨
        ∃ (d : DroneState) (r : ReferenceState),
          (track P E t).ctrl_calls = ⟨P.switch_ude, d, r, s.dt⟩ :: s.ctrl_calls := by
    intro t h1 h2
    rcases track_ctrl_calls_cases P E t with h | h
    · exact Or.inl (h.trans h1)
    · exact Or.inr ⟨_, _, by rw [h, h1, h2]⟩
  unfold dispatch
  split
  · exact Or.inl rfl
  · exact key _ (by simp) (by simp)
  · exact key _ rfl rfl
  · exact key _ (by simp) (by simp)
  · exact key _ (by simp) (by simp)
  · dsimp only
    split_ifs
    · exact Or.inl (by simp)
    · exact key _ (by simp) (by simp)
  · exact Or.inl (by simp)
  · exact Or.inl rfl
  · simp only [trajectory_quit_ctrl_calls]
    exact key _ (by simp) (by simp)
  · exact Or.inl rfl

/-- What the clamp returns in each of its three cases. -/
theorem constrain_function2_cases (x : ℚ) :
    (0.01 : ℚ) ≤ constrain_function2 x 0.01 0.03 ∧ constrain_function2 x 0.01 0.03 ≤ 0.03 ∧
      (x < 0.01 → constrain_function2 x 0.01 0.03 = 0.01) ∧
      (0.03 < x → constrain_function2 x 0.01 0.03 = 0.03) ∧
      (0.01 ≤ x → x ≤ 0.03 → constrain_function2 x 0.01 0.03 = x) := by
  unfold constrain_function2
  refine ⟨?_, ?_, ?_, ?_, ?_⟩
  · split_ifs with h1 h2
    · norm_num
    · norm_num
    · exact not_lt.mp h2
  · split_ifs with h1 h2
    · norm_num
    · norm_num
    · exact not_lt.mp h1
  · intro h
    have h3 : ¬ x > 0.03 := by
      have : (0.01 : ℚ) < 0.03 := by norm_num
      exact not_lt.mpr (le_of_lt (lt_trans h this))
    rw [if_neg h3, if_pos h]
  · intro h
    rw [if_pos h]
  · intro h1 h2
    rw [if_neg (not_lt.mpr h2), if_neg (not_lt.mpr h1)]

/-- C14. Time step.  In every iteration the time step is the result of
`constrain_function2`, taken as the clamp to [0.01, 0.03], on
`cur_time - last_time`: it lies in [0.01, 0.03], equals 0.01 below the
interval, 0.03 above it and the raw difference inside it, so that raw
differences of 0.0005, 0.02 and 0.5 give 0.01, 0.02 and 0.03.  A control law
invoked in the iteration receives this value, a tracking iteration adds it to
the trajectory clock, and the unclamped `cur_time` becomes `last_time`. -/
theorem dt_clamped (P : Params) (E : Ext) (s : State) (i : Input) :
    (cycle P E s i).dt = constrain_function2 (i.cur_time - s.last_time) 0.01 0.03 ∧
      0.01 ≤ (cycle P E s i).dt ∧ (cycle P E s i).dt ≤ 0.03 ∧
      (i.cur_time - s.last_time < 0.01 → (cycle P E s i).dt = 0.01) ∧
      (0.03 < i.cur_time - s.last_time → (cycle P E s i).dt = 0.03) ∧
      (0.01 ≤ i.cur_time - s.last_time → i.cur_time - s.last_time ≤ 0.03 →
        (cycle P E s i).dt = i.cur_time - s.last_time) ∧
      (i.cur_time - s.last_time = 0.0005 → (cycle P E s i).dt = 0.01) ∧
      (i.cur_time - s.last_time = 0.02 → (cycle P E s i).dt = 0.02) ∧
      (i.cur_time - s.last_time = 0.5 → (cycle P E s i).dt = 0.03) ∧
      ((cycle P E s i).ctrl_calls = s.ctrl_calls ∨
        ∃ (d : DroneState) (r : ReferenceState),
          (cycle P E s i).ctrl_calls = ⟨P.switch_ude, d, r, (cycle P E s i).dt⟩ :: s.ctrl_calls) ∧
      (dispatched P s i = Mode.Trajectory_Tracking →
        (cycle P E s i).time_trajectory =
          (if s.Command_Last.Mode = Mode.Trajectory_Tracking then s.time_trajectory else 0) +
            (cycle P E s i).dt) ∧
      (cycle P E s i).last_time = i.cur_time := by
  have hdt : (cycle P E s i).dt = constrain_function2 (i.cur_time - s.last_time) 0.01 0.03 := by
    simp [cycle, after_switch, dispatch_dt, before_switch_dt]
  obtain ⟨k1, k2, k3, k4, k5⟩ := constrain_function2_cases (i.cur_time - s.last_time)
  refine ⟨hdt, ?_, ?_, ?_, ?_, ?_, ?_, ?_, ?_, ?_, ?_, ?_⟩
  · rw [hdt]
    exact k1
  · rw [hdt]
    exact k2
  · rw [hdt]
    exact k3
  · rw [hdt]
    exact k4
  · rw [hdt]
    exact k5
  · intro h
    rw [hdt, h]
    norm_num [constrain_function2]
  · intro h
    rw [hdt, h]
    norm_num [constrain_function2]
  · intro h
    rw [hdt, h]
    norm_num [constrain_function2]
  · rw [(cycle_outputs P E s i).1, hdt, ← before_switch_dt P s i,
      ← (before_switch_logs P s i).1]
    exact dispatch_ctrl_calls_cases P E _
  · intro hd
    rw [cycle_time_trajectory, (dispatch_trajectory P E _ hd).1, trajectory_time_before_switch,
      hdt]
  · simp [cycle, after_switch, dispatch_last_time, before_switch_last_time]

/-- C14 on sample data: the first iteration starts 0.5 s after the loop was
entered and uses a time step of 0.03. -/
theorem dt_clamped_witness :
    (cycle sampleParams sampleExt sampleInit
      (sampleInput [sampleCommand Mode.Takeoff 1] zeroVec 0.5)).dt = 0.03 :=
  (dt_clamped sampleParams sampleExt sampleInit
    (sampleInput [sampleCommand Mode.Takeoff 1] zeroVec 0.5)).2.2.2.2.2.2.2.2.1
    (by
      rw [sampleInput_cur_time, sampleInit_last_time]
      norm_num)

/-! ## Disarm requests -/

/-- The service calls of the disarm block, newest first. -/
theorem disarm_requests_requests (s : State) :
    (disarm_requests s).requests =
      (if s._DroneState.armed then [Request.arming false] else []) ++
        ((if s._DroneState.mode = "OFFBOARD" then [Request.set_mode "MANUAL"] else []) ++
          s.requests) := by
  simp only [disarm_requests]
  split_ifs <;> simp_all

/-- The refreshed vehicle state reports the mode and the armed flag of the
estimator. -/
theorem before_switch_mode_armed (P : Params) (s : State) (i : Input) :
    (before_switch P s i)._DroneState.mode = i.mavros_state.mode ∧
      (before_switch P s i)._DroneState.armed = i.mavros_state.armed := by
  simp only [before_switch, refresh_state]
  split_ifs <;> simp

/-- C17. Landing sequencer requests.  In an iteration that dispatches on Land
with |vehicle Z - takeoff Z| below `Disarm_height`, the service calls made are:
a mode change to "MANUAL" exactly when the vehicle reports mode "OFFBOARD",
then a disarm request (value false) exactly when the vehicle reports armed;
this is so in every such iteration, hence repeated while the vehicle stays
armed.  With the height at or above `Disarm_height` no service call is made.
The mode and the armed flag are those the estimator reports in this
iteration. -/
theorem landing_requests (P : Params) (E : Ext) (s : State) (i : Input)
    (hd : dispatched P s i = Mode.Land) :
    (|(before_switch P s i)._DroneState.position.c2 - s.Takeoff_position.c2| < P.Disarm_height →
        (cycle P E s i).requests =
          (if i.mavros_state.armed then [Request.arming false] else []) ++
            ((if i.mavros_state.mode = "OFFBOARD" then [Request.set_mode "MANUAL"] else []) ++
              s.requests)) ∧
      (P.Disarm_height ≤
          |(before_switch P s i)._DroneState.position.c2 - s.Takeoff_position.c2| →
        (cycle P E s i).requests = s.requests) := by
  obtain ⟨hm, ha⟩ := before_switch_mode_armed P s i
  have hT := before_switch_Takeoff_position P s i
  have hr := (before_switch_logs P s i).2.1
  constructor
  · intro hz
    rw [← hT] at hz
    rw [(cycle_outputs P E s i).2.2.2.2, dispatch_Land_near P E _ hd hz, disarm_requests_requests]
    simp [hm, ha, hr]
  · intro hz
    rw [← hT] at hz
    rw [(cycle_outputs P E s i).2.2.2.2, dispatch_Land_far P E _ hd (not_lt.mpr hz)]
    simp [hr]

/-- C17 on sample data: Land at height 0.1 with the vehicle armed and in
offboard mode issues the mode change and then the disarm request. -/
theorem landing_requests_witness :
    (cycle sampleParams sampleExt sampleInit
        (sampleInput [sampleCommand Mode.Land 1] ⟨0, 0, 0.1⟩ 0.02)).requests =
      (if (sampleInput [sampleCommand Mode.Land 1] ⟨0, 0, 0.1⟩ 0.02).mavros_state.armed then
          [Request.arming false] else []) ++
        ((if (sampleInput [sampleCommand Mode.Land 1] ⟨0, 0, 0.1⟩ 0.02).mavros_state.mode =
              "OFFBOARD" then [Request.set_mode "MANUAL"] else []) ++
          sampleInit.requests) :=
  (landing_requests sampleParams sampleExt sampleInit
      (sampleInput [sampleCommand Mode.Land 1] ⟨0, 0, 0.1⟩ 0.02)
      (by
        rw [dispatched_eq, check_failsafe_sampleInit]
        simp)).1
    (by
      rw [before_switch_sample_position]
      norm_num [sampleParams, sampleInit, init, zeroVec, abs_of_nonneg])

/-- The Disarm case is the disarm block after the header copy. -/
theorem dispatch_Disarm (P : Params) (E : Ext) (s : State)
    (h : s.Command_Now.Mode = Mode.Disarm) :
    dispatch P E s = disarm_requests (copy_header s) := by
  simp only [dispatch, h]

/-- C18. Disarm mode.  In an iteration that dispatches on Disarm, whatever
the height of the vehicle, the service calls made are those of the Land case
within the disarm height: a mode change to "MANUAL" exactly when the vehicle
reports mode "OFFBOARD", then a disarm request exactly when it reports armed.
No control law is invoked, `accel_sp` and the attitude reference keep their
values, and the outgoing `Reference_State` is the one left by the iteration
before. -/
theorem disarm_mode (P : Params) (E : Ext) (s : State) (i : Input)
    (hd : dispatched P s i = Mode.Disarm) :
    (cycle P E s i).requests =
        (if i.mavros_state.armed then [Request.arming false] else []) ++
          ((if i.mavros_state.mode = "OFFBOARD" then [Request.set_mode "MANUAL"] else []) ++
            s.requests) ∧
      dispatch P E (before_switch P s i) =
        disarm_requests (copy_header (before_switch P s i)) ∧
      (cycle P E s i).ctrl_calls = s.ctrl_calls ∧
      (cycle P E s i).accel_sp = s.accel_sp ∧
      (cycle P E s i)._AttitudeReference = s._AttitudeReference ∧
      (cycle P E s i).Command_to_gs.Reference_State = s.Command_to_gs.Reference_State := by
  obtain ⟨hm, ha⟩ := before_switch_mode_armed P s i
  obtain ⟨b1, b2, -, b4, b5, -⟩ := before_switch_logs P s i
  obtain ⟨c1, c2, c3, -, c5⟩ := cycle_outputs P E s i
  have hD := dispatch_Disarm P E _ hd
  refine ⟨?_, hD, ?_, ?_, ?_, ?_⟩
  · rw [c5, hD, disarm_requests_requests]
    simp [hm, ha, b2]
  · rw [c1, hD]
    simp [b1]
  · rw [c2, hD]
    simp [b4]
  · rw [c3, hD]
    simp [b5]
  · rw [cycle_Command_to_gs, hD]
    simp [before_switch_Command_to_gs]

/-- C18 on sample data: Disarm commanded at height 50 invokes no control
law. -/
theorem disarm_mode_witness :
    (cycle sampleParams sampleExt sampleInit
        (sampleInput [sampleCommand Mode.Disarm 1] ⟨0, 0, 50⟩ 0.02)).ctrl_calls =
      sampleInit.ctrl_calls :=
  (disarm_mode sampleParams sampleExt sampleInit
    (sampleInput [sampleCommand Mode.Disarm 1] ⟨0, 0, 50⟩ 0.02)
    (by
      rw [dispatched_eq, check_failsafe_sampleInit]
      simp)).2.2.1

/-! ## Telemetry -/

/-- The header of the outgoing command after the switch, for the modes whose
case writes it. -/
theorem dispatch_header (P : Params) (E : Ext) (s : State)
    (h1 : s.Command_Now.Mode ≠ Mode.Idle) (h2 : s.Command_Now.Mode ≠ Mode.Failsafe_land)
    (h3 : s.Command_Now.Mode ≠ Mode.Unlisted) :
    (dispatch P E s).Command_to_gs.Mode = s.Command_Now.Mode ∧
      (dispatch P E s).Command_to_gs.Command_ID = s.Command_Now.Command_ID := by
  unfold dispatch
  split
  · rename_i h
    exact absurd h h1
  · simp
  · simp
  · simp
  · simp [hold_entry]
    split_ifs <;> simp
  · dsimp only
    split_ifs <;> simp [land_entry] <;> split_ifs <;> simp
  · simp
  · rename_i h
    exact absurd h h2
  · simp [trajectory_clock]
    split_ifs <;> simp
  · rename_i h
    exact absurd h h3

/-- The switch of the Idle, Failsafe_land and unlisted cases does not write
the outgoing command. -/
theorem dispatch_Command_to_gs_unwritten (P : Params) (E : Ext) (s : State)
    (h : s.Command_Now.Mode = Mode.Idle ∨ s.Command_Now.Mode = Mode.Failsafe_land ∨
      s.Command_Now.Mode = Mode.Unlisted) :
    (dispatch P E s).Command_to_gs = s.Command_to_gs := by
  rcases h with h | h | h <;> simp only [dispatch, h]

/-- C19, as amended.  In every iteration the command published to the ground
station is the outgoing command `Command_to_gs`; when the iteration
dispatches on Takeoff, Move_ENU, Move_Body, Hold, Land, Disarm or
Trajectory_Tracking, its `Mode` is the mode dispatched on and its
`Command_ID` is the identifier of the arbitrated command. -/
theorem telemetry_header (P : Params) (E : Ext) (s : State) (i : Input)
    (h1 : dispatched P s i ≠ Mode.Idle) (h2 : dispatched P s i ≠ Mode.Failsafe_land)
    (h3 : dispatched P s i ≠ Mode.Unlisted) :
    (cycle P E s i).to_gs_pub = (cycle P E s i).Command_to_gs :: s.to_gs_pub ∧
      (cycle P E s i).Command_to_gs.Mode = dispatched P s i ∧
      (cycle P E s i).Command_to_gs.Command_ID = (before_switch P s i).Command_Now.Command_ID := by
  obtain ⟨k1, k2⟩ := dispatch_header P E (before_switch P s i) h1 h2 h3
  have hp : (dispatch P E (before_switch P s i)).to_gs_pub = s.to_gs_pub := by
    have hb : (before_switch P s i).to_gs_pub = s.to_gs_pub := by
      simp only [before_switch, refresh_state, failsafe_override, land_latch, update_dt,
        spinOnce_eq]
      split_ifs <;> rfl
    rw [← hb]
    unfold dispatch
    split <;> try simp
    split_ifs <;> simp
  refine ⟨?_, ?_, ?_⟩
  · simp [cycle, after_switch, hp]
  · rw [cycle_Command_to_gs, k1]
    rfl
  · rw [cycle_Command_to_gs, k2]

/-- C19, as amended, on sample data: Takeoff with identifier 1 commanded in
the first iteration is what the ground station receives. -/
theorem telemetry_header_witness :
    (cycle sampleParams sampleExt sampleInit
        (sampleInput [sampleCommand Mode.Takeoff 1] zeroVec 0.02)).Command_to_gs.Mode =
      dispatched sampleParams sampleInit (sampleInput [sampleCommand Mode.Takeoff 1] zeroVec 0.02) :=
  have d1 : dispatched sampleParams sampleInit
      (sampleInput [sampleCommand Mode.Takeoff 1] zeroVec 0.02) = Mode.Takeoff := by
    rw [dispatched_eq, check_failsafe_sampleInit]
    simp
  (telemetry_header sampleParams sampleExt sampleInit
    (sampleInput [sampleCommand Mode.Takeoff 1] zeroVec 0.02)
    (by simp [d1]) (by simp [d1]) (by simp [d1])).2.1

/-- C19 as stated fails in Idle.  Takeoff with identifier 1 is commanded in
the first iteration and Idle with identifier 2 in the second.  The second
iteration dispatches on Idle with arbitrated identifier 2, and the command it
publishes to the ground station has mode Takeoff and identifier 1. -/
theorem telemetry_stale_in_idle :
    dispatched sampleParams
        (cycle sampleParams sampleExt sampleInit
          (sampleInput [sampleCommand Mode.Takeoff 1] zeroVec 0.02))
        (sampleInput [sampleCommand Mode.Idle 2] zeroVec 0.04) = Mode.Idle ∧
      (before_switch sampleParams
          (cycle sampleParams sampleExt sampleInit
            (sampleInput [sampleCommand Mode.Takeoff 1] zeroVec 0.02))
          (sampleInput [sampleCommand Mode.Idle 2] zeroVec 0.04)).Command_Now.Command_ID = 2 ∧
      ((run sampleParams sampleExt sampleInit
          [sampleInput [sampleCommand Mode.Takeoff 1] zeroVec 0.02,
           sampleInput [sampleCommand Mode.Idle 2] zeroVec 0.04]).to_gs_pub.head?.map
        fun c => (c.Mode, c.Command_ID)) = some (Mode.Takeoff, 1) := by
  have d1 : dispatched sampleParams sampleInit
      (sampleInput [sampleCommand Mode.Takeoff 1] zeroVec 0.02) = Mode.Takeoff := by
    rw [dispatched_eq, check_failsafe_sampleInit]
    simp
  have d2 : dispatched sampleParams
      (cycle sampleParams sampleExt sampleInit
        (sampleInput [sampleCommand Mode.Takeoff 1] zeroVec 0.02))
      (sampleInput [sampleCommand Mode.Idle 2] zeroVec 0.04) = Mode.Idle := by
    rw [dispatched_eq, check_failsafe_sample_cycle _ _ _ _ (by norm_num [zeroVec]),
      cycle_Command_Last_of_ne_trajectory _ _ _ _ (by simp [d1]), d1]
    simp
  obtain ⟨k1, k2⟩ := dispatch_header sampleParams sampleExt
    (before_switch sampleParams sampleInit
      (sampleInput [sampleCommand Mode.Takeoff 1] zeroVec 0.02))
    (by
      have := d1
      simp only [dispatched] at this
      simp [this])
    (by
      have := d1
      simp only [dispatched] at this
      simp [this])
    (by
      have := d1
      simp only [dispatched] at this
      simp [this])
  refine ⟨d2, by simp [before_switch_Command_ID], ?_⟩
  have hkeep := dispatch_Command_to_gs_unwritten sampleParams sampleExt
    (before_switch sampleParams
      (cycle sampleParams sampleExt sampleInit
        (sampleInput [sampleCommand Mode.Takeoff 1] zeroVec 0.02))
      (sampleInput [sampleCommand Mode.Idle 2] zeroVec 0.04)) (Or.inl d2)
  have hgs : (run sampleParams sampleExt sampleInit
      [sampleInput [sampleCommand Mode.Takeoff 1] zeroVec 0.02,
       sampleInput [sampleCommand Mode.Idle 2] zeroVec 0.04]).to_gs_pub.head? =
      some (cycle sampleParams sampleExt sampleInit
        (sampleInput [sampleCommand Mode.Takeoff 1] zeroVec 0.02)).Command_to_gs := by
    simp only [run]
    rw [show ∀ (s : State) (i : Input), (cycle sampleParams sampleExt s i).to_gs_pub =
        (dispatch sampleParams sampleExt (before_switch sampleParams s i)).Command_to_gs ::
          (dispatch sampleParams sampleExt (before_switch sampleParams s i)).to_gs_pub from
        fun s i => rfl, hkeep, before_switch_Command_to_gs]
    rfl
  rw [hgs, cycle_Command_to_gs]
  have hm := d1
  simp only [dispatched] at hm
  have hid := before_switch_Command_ID sampleParams sampleInit
    (sampleInput [sampleCommand Mode.Takeoff 1] zeroVec 0.02)
  simp only [Option.map_some', k1, k2, hm, hid]
  simp

/-! ## Move_ENU -/

/-- The overrides before the switch leave the command slot as `spinOnce` left
it or set its mode to Land. -/
theorem before_switch_Command_Now_cases (P : Params) (s : State) (i : Input) :
    (before_switch P s i).Command_Now = i.commands.getLast?.getD s.Command_Now ∨
      (before_switch P s i).Command_Now.Mode = Mode.Land := by
  simp only [before_switch, refresh_state, failsafe_override, land_latch, update_dt, spinOnce_eq]
  split_ifs <;> simp

/-- The outgoing command after the Move_ENU case. -/
theorem dispatch_Move_ENU (P : Params) (E : Ext) (s : State)
    (h : s.Command_Now.Mode = Mode.Move_ENU) :
    (dispatch P E s).Command_to_gs = s.Command_Now := by
  simp only [dispatch, h, track_Command_to_gs]

/-- When the command slot holds a Move_ENU command after an iteration, that
command is the last one received, provided this was so before. -/
theorem cycle_slot_received (P : Params) (E : Ext) (s : State) (i : Input)
    (hist : List ControlCommand)
    (h : s.Command_Now.Mode = Mode.Move_ENU → hist.getLast? = some s.Command_Now)
    (hm : (cycle P E s i).Command_Now.Mode = Mode.Move_ENU) :
    (hist ++ i.commands).getLast? = some (cycle P E s i).Command_Now := by
  rw [cycle_Command_Now] at hm ⊢
  by_cases ht : (before_switch P s i).Command_Now.Mode = Mode.Trajectory_Tracking
  · rcases dispatch_trajectory_Mode P E _ ht with h1 | h1 <;> rw [h1] at hm <;> cases hm
  · rw [dispatch_Command_Now P E _ ht] at hm ⊢
    rcases before_switch_Command_Now_cases P s i with h1 | h1
    · rw [h1] at hm ⊢
      cases hc : i.commands.getLast? with
      | none =>
          have hm2 : s.Command_Now.Mode = Mode.Move_ENU := by simpa [hc] using hm
          rw [List.getLast?_eq_none_iff.mp hc, List.append_nil]
          simpa [hc] using h hm2
      | some c => simp [List.getLast?_append, hc]
    · rw [h1] at hm
      cases hm

theorem received_commands_append (is js : List Input) :
    received_commands (is ++ js) = received_commands is ++ received_commands js := by
  induction is with
  | nil => rfl
  | cons i is ih => simp [received_commands, ih]

/-- Along a run, a Move_ENU command in the command slot is the last command
received. -/
theorem run_slot_received (P : Params) (E : Ext) (is : List Input) (s : State)
    (hist : List ControlCommand)
    (h : s.Command_Now.Mode = Mode.Move_ENU → hist.getLast? = some s.Command_Now) :
    (run P E s is).Command_Now.Mode = Mode.Move_ENU →
      (hist ++ received_commands is).getLast? = some (run P E s is).Command_Now := by
  induction is generalizing s hist with
  | nil =>
      intro hm
      simpa [run, received_commands] using h hm
  | cons i is ih =>
      intro hm
      simp only [run, received_commands] at hm ⊢
      rw [← List.append_assoc]
      exact ih _ _ (cycle_slot_received P E s i hist h) hm

/-- C16. Move_ENU copies the command.  In a run from the initial state, an
iteration that dispatches on Move_ENU leaves as outgoing command (mode,
identifier and `Reference_State`) the last command received so far, which is
the content of the command slot after `spinOnce`. -/
theorem move_enu_copies_command (P : Params) (E : Ext) (takeoff mocap : Vec3) (begin_time : ℚ)
    (pre : List Input) (i : Input)
    (hd : dispatched P (run P E (init takeoff mocap begin_time) pre) i = Mode.Move_ENU) :
    (received_commands (pre ++ [i])).getLast? =
        some (cycle P E (run P E (init takeoff mocap begin_time) pre) i).Command_to_gs ∧
      (cycle P E (run P E (init takeoff mocap begin_time) pre) i).Command_to_gs =
        (spinOnce (run P E (init takeoff mocap begin_time) pre) i).Command_Now := by
  have hinv := run_slot_received P E pre (init takeoff mocap begin_time) []
    (by
      intro h
      simp [init] at h)
  rw [List.nil_append] at hinv
  have hgs := dispatch_Move_ENU P E _ hd
  have hslot : (before_switch P (run P E (init takeoff mocap begin_time) pre) i).Command_Now =
      i.commands.getLast?.getD (run P E (init takeoff mocap begin_time) pre).Command_Now := by
    rcases before_switch_Command_Now_cases P (run P E (init takeoff mocap begin_time) pre) i
      with h1 | h1
    · exact h1
    · simp only [dispatched] at hd
      rw [h1] at hd
      cases hd
  constructor
  · rw [cycle_Command_to_gs, hgs, hslot, received_commands_append]
    simp only [received_commands, List.append_nil]
    cases hc : i.commands.getLast? with
    | none =>
        have hmode : (run P E (init takeoff mocap begin_time) pre).Command_Now.Mode =
            Mode.Move_ENU := by
          simp only [dispatched] at hd
          rw [hslot] at hd
          simpa [hc] using hd
        rw [List.getLast?_eq_none_iff.mp hc, List.append_nil]
        simpa [hc] using hinv hmode
    | some c => simp [List.getLast?_append, hc]
  · rw [cycle_Command_to_gs, hgs, hslot, spinOnce_eq]

/-- C16 on a run: Takeoff is commanded, then a Move_ENU command arrives and is
dispatched on; it is the outgoing command. -/
theorem move_enu_copies_command_witness :
    (received_commands
        ([sampleInput [sampleCommand Mode.Takeoff 1] zeroVec 0.02] ++
          [sampleInput [sampleCommand Mode.Move_ENU 2] zeroVec 0.04])).getLast? =
      some (cycle sampleParams sampleExt
        (run sampleParams sampleExt (init zeroVec zeroVec 0)
          [sampleInput [sampleCommand Mode.Takeoff 1] zeroVec 0.02])
        (sampleInput [sampleCommand Mode.Move_ENU 2] zeroVec 0.04)).Command_to_gs :=
  (move_enu_copies_command sampleParams sampleExt zeroVec zeroVec 0
    [sampleInput [sampleCommand Mode.Takeoff 1] zeroVec 0.02]
    (sampleInput [sampleCommand Mode.Move_ENU 2] zeroVec 0.04)
    (by
      have d1 : dispatched sampleParams sampleInit
          (sampleInput [sampleCommand Mode.Takeoff 1] zeroVec 0.02) = Mode.Takeoff := by
        rw [dispatched_eq, check_failsafe_sampleInit]
        simp
      show dispatched sampleParams (cycle sampleParams sampleExt sampleInit _) _ = Mode.Move_ENU
      rw [dispatched_eq, check_failsafe_sample_cycle _ _ _ _ (by norm_num [zeroVec]),
        cycle_Command_Last_of_ne_trajectory _ _ _ _ (by simp [d1]), d1]
      simp)).1

/-! ## The takeoff position -/

/-- Along a run every state has the takeoff position of the start. -/
theorem trace_Takeoff_position (P : Params) (E : Ext) (is : List Input) (s : State) :
    ∀ t ∈ trace P E s is, t.Takeoff_position = s.Takeoff_position := by
  induction is generalizing s with
  | nil => simp [trace]
  | cons i is ih =>
      intro t ht
      simp only [trace, List.mem_cons] at ht
      rcases ht with ht | ht
      · rw [ht, cycle_Takeoff_position]
      · rw [ih _ t ht, cycle_Takeoff_position]

/-- C21. The takeoff position is immutable.  No part of an iteration, in any
mode and for any input, changes `Takeoff_position`; in a run from the initial
state, the state after every iteration holds the position captured before
the loop. -/
theorem takeoff_position_immutable (P : Params) (E : Ext) (s : State) (i : Input)
    (takeoff mocap : Vec3) (begin_time : ℚ) (is : List Input) :
    (before_switch P s i).Takeoff_position = s.Takeoff_position ∧
      (dispatch P E (before_switch P s i)).Takeoff_position = s.Takeoff_position ∧
      (cycle P E s i).Takeoff_position = s.Takeoff_position ∧
      (init takeoff mocap begin_time).Takeoff_position = takeoff ∧
      (∀ t ∈ trace P E (init takeoff mocap begin_time) is, t.Takeoff_position = takeoff) ∧
      (run P E (init takeoff mocap begin_time) is).Takeoff_position = takeoff := by
  refine ⟨before_switch_Takeoff_position P s i, ?_, cycle_Takeoff_position P E s i, rfl, ?_, ?_⟩
  · rw [dispatch_Takeoff_position, before_switch_Takeoff_position]
  · intro t ht
    rw [trace_Takeoff_position P E is _ t ht]
    rfl
  · rw [run_Takeoff_position]
    rfl

/-! ## Idle and Failsafe_land -/

/-- C22. Idle and Failsafe_land synthesize nothing.  In an iteration that
dispatches on Idle or on Failsafe_land no control law is invoked, no service
call is made, and the outgoing command `Command_to_gs`, `accel_sp`, the
attitude reference and the trajectory clock are those left by the iteration
before. -/
theorem idle_failsafe_land_frame (P : Params) (E : Ext) (s : State) (i : Input)
    (hd : dispatched P s i = Mode.Idle ∨ dispatched P s i = Mode.Failsafe_land) :
    (cycle P E s i).ctrl_calls = s.ctrl_calls ∧
      (cycle P E s i).requests = s.requests ∧
      (cycle P E s i).Command_to_gs = s.Command_to_gs ∧
      (cycle P E s i).accel_sp = s.accel_sp ∧
      (cycle P E s i)._AttitudeReference = s._AttitudeReference ∧
      (cycle P E s i).time_trajectory = s.time_trajectory := by
  obtain ⟨b1, b2, -, b4, b5, b6⟩ := before_switch_logs P s i
  obtain ⟨c1, c2, c3, -, c5⟩ := cycle_outputs P E s i
  have hgs := before_switch_Command_to_gs P s i
  simp only [dispatched] at hd
  rw [c1, c5, cycle_Command_to_gs, c2, c3, cycle_time_trajectory]
  rcases hd with hd | hd <;> simp only [dispatch, hd] <;> exact ⟨b1, b2, hgs, b4, b5, b6⟩

/-- C22 on sample data: Idle commanded after Takeoff leaves the outgoing
command of the Takeoff iteration in place. -/
theorem idle_failsafe_land_frame_witness :
    (cycle sampleParams sampleExt
        (cycle sampleParams sampleExt sampleInit
          (sampleInput [sampleCommand Mode.Takeoff 1] zeroVec 0.02))
        (sampleInput [sampleCommand Mode.Idle 2] zeroVec 0.04)).Command_to_gs =
      (cycle sampleParams sampleExt sampleInit
        (sampleInput [sampleCommand Mode.Takeoff 1] zeroVec 0.02)).Command_to_gs :=
  have d1 : dispatched sampleParams sampleInit
      (sampleInput [sampleCommand Mode.Takeoff 1] zeroVec 0.02) = Mode.Takeoff := by
    rw [dispatched_eq, check_failsafe_sampleInit]
    simp
  (idle_failsafe_land_frame sampleParams sampleExt _
    (sampleInput [sampleCommand Mode.Idle 2] zeroVec 0.04)
    (Or.inl (by
      rw [dispatched_eq, check_failsafe_sample_cycle _ _ _ _ (by norm_num [zeroVec]),
        cycle_Command_Last_of_ne_trajectory _ _ _ _ (by simp [d1]), d1]
      simp))).2.2.1

/-! ## The sub-mode under Move_Body -/

/-- No block of the Move_Body conversion writes the sub-mode. -/
theorem move_body_ref_Sub_mode (E : Ext) (s : State) :
    (move_body_ref E s).Sub_mode = s.Command_to_gs.Reference_State.Sub_mode := by
  unfold move_body_ref
  split_ifs
  · simp only [move_body_yaw_acc, move_body_z, move_body_xy]
    split_ifs <;> rfl
  · rfl

/-- The Move_Body case is the tracking block on the converted reference. -/
theorem dispatch_Move_Body (P : Params) (E : Ext) (s : State)
    (h : s.Command_Now.Mode = Mode.Move_Body) :
    dispatch P E s = track P E (set_ref (copy_header s) (move_body_ref E (copy_header s))) := by
  simp only [dispatch, h]

/-- An iteration on Move_Body, Idle, Disarm, Failsafe_land or an unlisted
mode keeps the outgoing sub-mode. -/
theorem cycle_Sub_mode_kept (P : Params) (E : Ext) (s : State) (i : Input)
    (h : dispatched P s i ∈
      [Mode.Move_Body, Mode.Idle, Mode.Disarm, Mode.Failsafe_land, Mode.Unlisted]) :
    (cycle P E s i).Command_to_gs.Reference_State.Sub_mode =
      s.Command_to_gs.Reference_State.Sub_mode := by
  simp only [List.mem_cons, List.mem_singleton, List.not_mem_nil, or_false] at h
  rw [cycle_Command_to_gs, ← before_switch_Command_to_gs P s i]
  rcases h with h | h | h | h | h
  · rw [dispatch_Move_Body_ref P E _ h, move_body_ref_Sub_mode]
  · rw [dispatch_Command_to_gs_unwritten P E _ (Or.inl h)]
  · rw [dispatch_Disarm P E _ h]
    simp
  · rw [dispatch_Command_to_gs_unwritten P E _ (Or.inr (Or.inl h))]
  · rw [dispatch_Command_to_gs_unwritten P E _ (Or.inr (Or.inr h))]

theorem run_Sub_mode_kept (P : Params) (E : Ext) (is : List Input) (s : State)
    (h : ∀ m ∈ modes P E s is,
      m ∈ [Mode.Move_Body, Mode.Idle, Mode.Disarm, Mode.Failsafe_land, Mode.Unlisted]) :
    (run P E s is).Command_to_gs.Reference_State.Sub_mode =
      s.Command_to_gs.Reference_State.Sub_mode := by
  induction is generalizing s with
  | nil => rfl
  | cons i is ih =>
      have h1 := h (dispatched P s i) (by simp [modes])
      have h2 : ∀ m ∈ modes P E (cycle P E s i) is,
          m ∈ [Mode.Move_Body, Mode.Idle, Mode.Disarm, Mode.Failsafe_land, Mode.Unlisted] :=
        fun m hm => h m (by simp [modes, hm])
      simp only [run]
      rw [ih _ h2, cycle_Sub_mode_kept P E s i h1]

/-- C24. Move_Body never writes the outgoing sub-mode.  Let `s0` be the state
left by an iteration, let the iterations on `mid` that follow dispatch only on
Move_Body, Idle, Disarm, Failsafe_land or an unlisted mode, and let the next
iteration dispatch on Move_Body.  Then, with or without a larger identifier,
its outgoing `Sub_mode` is the one left by the iteration before it, which is
that of `s0`; and a control law invoked in it receives a reference with that
sub-mode. -/
theorem move_body_keeps_sub_mode (P : Params) (E : Ext) (s0 : State) (mid : List Input)
    (i : Input)
    (hmid : ∀ m ∈ modes P E s0 mid,
      m ∈ [Mode.Move_Body, Mode.Idle, Mode.Disarm, Mode.Failsafe_land, Mode.Unlisted])
    (hd : dispatched P (run P E s0 mid) i = Mode.Move_Body) :
    (cycle P E (run P E s0 mid) i).Command_to_gs.Reference_State.Sub_mode =
        (run P E s0 mid).Command_to_gs.Reference_State.Sub_mode ∧
      (cycle P E (run P E s0 mid) i).Command_to_gs.Reference_State.Sub_mode =
        s0.Command_to_gs.Reference_State.Sub_mode ∧
      ((cycle P E (run P E s0 mid) i).ctrl_calls = (run P E s0 mid).ctrl_calls ∨
        ∃ c : CtrlCall,
          (cycle P E (run P E s0 mid) i).ctrl_calls = c :: (run P E s0 mid).ctrl_calls ∧
            c.ref.Sub_mode = s0.Command_to_gs.Reference_State.Sub_mode) := by
  have h1 := cycle_Sub_mode_kept P E (run P E s0 mid) i (by simp [hd])
  have h2 := run_Sub_mode_kept P E mid s0 hmid
  refine ⟨h1, h1.trans h2, ?_⟩
  have hb := (before_switch_logs P (run P E s0 mid) i).1
  rw [(cycle_outputs P E _ i).1, dispatch_Move_Body P E _ hd]
  rcases track_ctrl_calls_cases P E
    (set_ref (copy_header (before_switch P (run P E s0 mid) i))
      (move_body_ref E (copy_header (before_switch P (run P E s0 mid) i)))) with h | h
  · left
    rw [h]
    simpa using hb
  · right
    refine ⟨⟨P.switch_ude, (before_switch P (run P E s0 mid) i)._DroneState,
      move_body_ref E (copy_header (before_switch P (run P E s0 mid) i)),
      (before_switch P (run P E s0 mid) i).dt⟩, ?_, ?_⟩
    · rw [h]
      simp [hb]
    · show (move_body_ref E (copy_header (before_switch P (run P E s0 mid) i))).Sub_mode = _
      rw [move_body_ref_Sub_mode, copy_header_Reference_State, before_switch_Command_to_gs, h2]

/-- C24 on a run: Takeoff leaves sub-mode XYZ_POS; a body-frame command with
the XY velocity bit set follows and the outgoing sub-mode is still the one of
the Takeoff iteration. -/
theorem move_body_keeps_sub_mode_witness :
    (cycle sampleParams sampleExt
        (run sampleParams sampleExt
          (cycle sampleParams sampleExt sampleInit
            (sampleInput [sampleCommand Mode.Takeoff 1] zeroVec 0.02)) [])
        (sampleInput [{ sampleXYVelCommand with Command_ID := 2 }] zeroVec 0.04)
      ).Command_to_gs.Reference_State.Sub_mode =
      (cycle sampleParams sampleExt sampleInit
        (sampleInput [sampleCommand Mode.Takeoff 1] zeroVec 0.02)
      ).Command_to_gs.Reference_State.Sub_mode :=
  have d1 : dispatched sampleParams sampleInit
      (sampleInput [sampleCommand Mode.Takeoff 1] zeroVec 0.02) = Mode.Takeoff := by
    rw [dispatched_eq, check_failsafe_sampleInit]
    simp
  (move_body_keeps_sub_mode sampleParams sampleExt
    (cycle sampleParams sampleExt sampleInit
      (sampleInput [sampleCommand Mode.Takeoff 1] zeroVec 0.02)) []
    (sampleInput [{ sampleXYVelCommand with Command_ID := 2 }] zeroVec 0.04)
    (by simp [modes])
    (by
      show dispatched sampleParams (cycle sampleParams sampleExt sampleInit _) _ = Mode.Move_Body
      rw [dispatched_eq, check_failsafe_sample_cycle _ _ _ _ (by norm_num [zeroVec]),
        cycle_Command_Last_of_ne_trajectory _ _ _ _ (by simp [d1]), d1]
      simp [sampleXYVelCommand])).2.1

/-! ## Tracking runs -/

theorem cycle_last_time (P : Params) (E : Ext) (s : State) (i : Input) :
    (cycle P E s i).last_time = i.cur_time := by
  simp [cycle, after_switch, dispatch_last_time, before_switch_last_time]

theorem cycle_dt (P : Params) (E : Ext) (s : State) (i : Input) :
    (cycle P E s i).dt = constrain_function2 (i.cur_time - s.last_time) 0.01 0.03 := by
  simp [cycle, after_switch, dispatch_dt, before_switch_dt]

/-- What a tracking iteration leaves: the clock, the recorded mode, the mode
in the command slot and the outgoing reference. -/
theorem cycle_tracking (P : Params) (E : Ext) (s : State) (i : Input)
    (hd : dispatched P s i = Mode.Trajectory_Tracking) :
    (cycle P E s i).time_trajectory =
        (if s.Command_Last.Mode = Mode.Trajectory_Tracking then s.time_trajectory else 0) +
          constrain_function2 (i.cur_time - s.last_time) 0.01 0.03 ∧
      (cycle P E s i).Command_Last.Mode =
        (if (cycle P E s i).time_trajectory ≥ E.time_total then Mode.Hold
          else Mode.Trajectory_Tracking) ∧
      (cycle P E s i).Command_Now.Mode =
        (if (cycle P E s i).time_trajectory ≥ E.time_total then Mode.Hold
          else Mode.Trajectory_Tracking) ∧
      (cycle P E s i).Command_to_gs.Reference_State =
        E.Circle_trajectory_generation (cycle P E s i).time_trajectory := by
  obtain ⟨h1, h2, h3⟩ := dispatch_trajectory P E _ hd
  refine ⟨?_, ?_, ?_, ?_⟩
  · rw [cycle_time_trajectory, h1, trajectory_time_before_switch]
  · rw [cycle_Command_Last_eq, cycle_time_trajectory, h1, h3]
  · rw [cycle_Command_Now, cycle_time_trajectory, h1, h3]
  · rw [cycle_Command_to_gs, cycle_time_trajectory, h1, h2]

/-- C23. A trajectory restarts when a tracking command keeps arriving.  Let a
tracking iteration complete the trajectory, so that Hold is left in the slot
and recorded, and let the next iteration receive commands the last of which
has mode Trajectory_Tracking while its geofence check returns 0.  That
iteration dispatches on Trajectory_Tracking, not on Hold; its clock restarts
from zero and ends at its time step dt, and its outgoing reference is the
result of the generator at dt. -/
theorem trajectory_restarts (P : Params) (E : Ext) (s : State) (i i2 : Input)
    (c : ControlCommand)
    (hd : dispatched P s i = Mode.Trajectory_Tracking)
    (hdone : (cycle P E s i).time_trajectory ≥ E.time_total)
    (hc : i2.commands.getLast? = some c) (hcm : c.Mode = Mode.Trajectory_Tracking)
    (hf : check_failsafe P (land_latch (update_dt (spinOnce (cycle P E s i) i2) i2)) = 0) :
    (cycle P E s i).Command_Now.Mode = Mode.Hold ∧
      (cycle P E s i).Command_Last.Mode = Mode.Hold ∧
      dispatched P (cycle P E s i) i2 = Mode.Trajectory_Tracking ∧
      (cycle P E (cycle P E s i) i2).dt =
        constrain_function2 (i2.cur_time - i.cur_time) 0.01 0.03 ∧
      (cycle P E (cycle P E s i) i2).time_trajectory = (cycle P E (cycle P E s i) i2).dt ∧
      (cycle P E (cycle P E s i) i2).Command_to_gs.Reference_State =
        E.Circle_trajectory_generation (cycle P E (cycle P E s i) i2).dt := by
  obtain ⟨-, k2, k3, -⟩ := cycle_tracking P E s i hd
  rw [if_pos hdone] at k2 k3
  rw [check_failsafe_site] at hf
  have hd2 : dispatched P (cycle P E s i) i2 = Mode.Trajectory_Tracking := by
    rw [dispatched_eq, hf, k2, hc]
    simp [hcm]
  obtain ⟨m1, -, -, m4⟩ := cycle_tracking P E _ i2 hd2
  have hdt := cycle_dt P E (cycle P E s i) i2
  rw [cycle_last_time] at hdt
  have ht : (cycle P E (cycle P E s i) i2).time_trajectory =
      (cycle P E (cycle P E s i) i2).dt := by
    rw [m1, k2, if_neg (by decide), cycle_dt, zero_add]
  refine ⟨k3, k2, hd2, hdt, ht, ?_⟩
  rw [m4, ht]

/-- The first sample tracking iteration records Hold. -/
theorem sample_tracking_done :
    dispatched sampleParams sampleInit
        (sampleInput [sampleCommand Mode.Trajectory_Tracking 1] zeroVec 0.02) =
        Mode.Trajectory_Tracking ∧
      (cycle sampleParams sampleExt sampleInit
        (sampleInput [sampleCommand Mode.Trajectory_Tracking 1] zeroVec 0.02)).time_trajectory ≥
        sampleExt.time_total ∧
      (cycle sampleParams sampleExt sampleInit
        (sampleInput [sampleCommand Mode.Trajectory_Tracking 1] zeroVec 0.02)).Command_Last.Mode =
        Mode.Hold := by
  have hd : dispatched sampleParams sampleInit
      (sampleInput [sampleCommand Mode.Trajectory_Tracking 1] zeroVec 0.02) =
        Mode.Trajectory_Tracking := by
    rw [dispatched_eq, check_failsafe_sampleInit]
    simp
  have ht : (cycle sampleParams sampleExt sampleInit
      (sampleInput [sampleCommand Mode.Trajectory_Tracking 1] zeroVec 0.02)).time_trajectory ≥
      sampleExt.time_total := by
    rw [sample_tracking_clock]
    norm_num [sampleExt]
  refine ⟨hd, ht, ?_⟩
  rw [(cycle_tracking sampleParams sampleExt _ _ hd).2.1, if_pos ht]

/-- C23 on sample data: the trajectory of duration 0.02 is completed by the
first iteration; a second tracking command arrives and the next iteration
dispatches on Trajectory_Tracking. -/
theorem trajectory_restarts_witness :
    dispatched sampleParams
        (cycle sampleParams sampleExt sampleInit
          (sampleInput [sampleCommand Mode.Trajectory_Tracking 1] zeroVec 0.02))
        (sampleInput [sampleCommand Mode.Trajectory_Tracking 2] zeroVec 0.03) =
      Mode.Trajectory_Tracking :=
  (trajectory_restarts sampleParams sampleExt sampleInit
    (sampleInput [sampleCommand Mode.Trajectory_Tracking 1] zeroVec 0.02)
    (sampleInput [sampleCommand Mode.Trajectory_Tracking 2] zeroVec 0.03)
    (sampleCommand Mode.Trajectory_Tracking 2)
    sample_tracking_done.1 sample_tracking_done.2.1 rfl rfl
    (by
      rw [check_failsafe_site]
      exact check_failsafe_sample_cycle _ _ _ _ (by norm_num [zeroVec]))).2.2.1

theorem run_append (P : Params) (E : Ext) (is js : List Input) (s : State) :
    run P E s (is ++ js) = run P E (run P E s is) js := by
  induction is generalizing s with
  | nil => rfl
  | cons i is ih =>
      rw [List.cons_append]
      simp only [run]
      exact ih _

theorem trace_append (P : Params) (E : Ext) (is js : List Input) (s : State) :
    trace P E s (is ++ js) = trace P E s is ++ trace P E (run P E s is) js := by
  induction is generalizing s with
  | nil => rfl
  | cons i is ih =>
      rw [List.cons_append]
      simp only [trace, run, List.cons_append]
      rw [ih]

/-- The base to which the next tracking iteration adds its time step. -/
theorem clock_base_le (t : State) (b : ℚ) (h0 : 0 ≤ b) (h : t.time_trajectory ≤ b) :
    (if t.Command_Last.Mode = Mode.Trajectory_Tracking then t.time_trajectory else 0) ≤ b := by
  split_ifs
  · exact h
  · exact h0

/-- Bounds on the clock after a run of tracking iterations, from a state in
which the base of the clock is bounded in terms of a count `j`. -/
theorem tracking_clock_bounds (P : Params) (E : Ext) (pre : List Input) (last : Input)
    (s : State) (j : ℕ)
    (hTT : ∀ m ∈ modes P E s (pre ++ [last]), m = Mode.Trajectory_Tracking) :
    ((if s.Command_Last.Mode = Mode.Trajectory_Tracking then s.time_trajectory else 0) ≤
          0.03 * (j : ℚ) →
        (run P E s (pre ++ [last])).time_trajectory ≤ 0.03 * ((j + pre.length + 1 : ℕ) : ℚ)) ∧
      (0.01 * (j : ℚ) ≤
          (if s.Command_Last.Mode = Mode.Trajectory_Tracking then s.time_trajectory else 0) →
        (∀ t ∈ trace P E s pre, t.time_trajectory < E.time_total) →
        0.01 * ((j + pre.length + 1 : ℕ) : ℚ) ≤ (run P E s (pre ++ [last])).time_trajectory) := by
  induction pre generalizing s j with
  | nil =>
      have hd : dispatched P s last = Mode.Trajectory_Tracking := hTT _ (by simp [modes])
      obtain ⟨k1, -⟩ := cycle_tracking P E s last hd
      obtain ⟨c1, c2, -⟩ := constrain_function2_cases (last.cur_time - s.last_time)
      simp only [List.nil_append, run, List.length_nil, add_zero]
      rw [k1]
      push_cast
      constructor
      · intro h
        linarith
      · intro h _
        linarith
  | cons i pre ih =>
      have hd : dispatched P s i = Mode.Trajectory_Tracking := hTT _ (by simp [modes])
      have hTT2 : ∀ m ∈ modes P E (cycle P E s i) (pre ++ [last]),
          m = Mode.Trajectory_Tracking :=
        fun m hm => hTT m (by simp only [List.cons_append, modes, List.mem_cons]; exact Or.inr hm)
      obtain ⟨k1, k2, -⟩ := cycle_tracking P E s i hd
      obtain ⟨c1, c2, -⟩ := constrain_function2_cases (i.cur_time - s.last_time)
      obtain ⟨ihU, ihL⟩ := ih (cycle P E s i) (j + 1) hTT2
      simp only [List.cons_append, run, List.length_cons]
      constructor
      · intro h
        have hb : (cycle P E s i).time_trajectory ≤ 0.03 * ((j + 1 : ℕ) : ℚ) := by
          rw [k1]
          push_cast
          linarith
        have h0 : (0 : ℚ) ≤ 0.03 * ((j + 1 : ℕ) : ℚ) := by positivity
        have := ihU (clock_base_le _ _ h0 hb)
        rw [show j + (pre.length + 1) + 1 = j + 1 + pre.length + 1 by omega]
        exact this
      · intro h hno
        have hlt : (cycle P E s i).time_trajectory < E.time_total :=
          hno _ (by simp [trace])
        rw [if_neg (not_le.mpr hlt)] at k2
        have hb : 0.01 * ((j + 1 : ℕ) : ℚ) ≤
            (if (cycle P E s i).Command_Last.Mode = Mode.Trajectory_Tracking then
              (cycle P E s i).time_trajectory else 0) := by
          rw [if_pos k2, k1]
          push_cast
          linarith
        have := ihL hb (fun t ht => hno t (by simp only [trace, List.mem_cons]; exact Or.inr ht))
        rw [show j + (pre.length + 1) + 1 = j + 1 + pre.length + 1 by omega]
        exact this

/-- C25, as amended.  Take k = `pre.length + 1` consecutive iterations that
dispatch on Trajectory_Tracking, the first entered with another mode
recorded.  After them the clock is at most 0.03 k; it is at least 0.01 k when
none of the first k - 1 reached `time_total`; and when k is at least
ceil(`time_total` / 0.01), one of the k iterations leaves a clock that
satisfies the completion condition, whatever the time differences are. -/
theorem trajectory_clock_bounded (P : Params) (E : Ext) (s : State) (pre : List Input)
    (last : Input)
    (hentry : s.Command_Last.Mode ≠ Mode.Trajectory_Tracking)
    (hTT : ∀ m ∈ modes P E s (pre ++ [last]), m = Mode.Trajectory_Tracking) :
    (run P E s (pre ++ [last])).time_trajectory ≤ 0.03 * ((pre.length + 1 : ℕ) : ℚ) ∧
      ((∀ t ∈ trace P E s pre, t.time_trajectory < E.time_total) →
        0.01 * ((pre.length + 1 : ℕ) : ℚ) ≤ (run P E s (pre ++ [last])).time_trajectory) ∧
      (⌈E.time_total / 0.01⌉₊ ≤ pre.length + 1 →
        ∃ t ∈ trace P E s (pre ++ [last]), t.time_trajectory ≥ E.time_total) := by
  obtain ⟨hU, hL⟩ := tracking_clock_bounds P E pre last s 0 hTT
  rw [if_neg hentry] at hU hL
  simp only [Nat.cast_zero, mul_zero, le_refl, zero_add, forall_true_left] at hU hL
  refine ⟨hU, hL, fun hk => ?_⟩
  have hk2 : E.time_total ≤ 0.01 * ((pre.length + 1 : ℕ) : ℚ) := by
    have h1 : E.time_total / 0.01 ≤ ((pre.length + 1 : ℕ) : ℚ) := Nat.ceil_le.mp hk
    have h2 : (0 : ℚ) < 0.01 := by norm_num
    have h3 := (div_le_iff₀ h2).mp h1
    linarith
  by_cases hno : ∀ t ∈ trace P E s pre, t.time_trajectory < E.time_total
  · refine ⟨run P E s (pre ++ [last]), ?_, le_trans hk2 (hL hno)⟩
    rw [trace_append, run_append]
    simp [trace, run]
  · push_neg at hno
    obtain ⟨t, ht, hge⟩ := hno
    exact ⟨t, by rw [trace_append]; exact List.mem_append_left _ ht, hge⟩

/-- Tracking entered in the first sample iteration, `t` seconds after the
loop was entered, with `t` inside the clamp interval: the clock becomes `t`. -/
theorem sample_tracking_entry (t : ℚ) (h1 : 0.01 ≤ t) (h2 : t ≤ 0.03) :
    dispatched sampleParams sampleInit
        (sampleInput [sampleCommand Mode.Trajectory_Tracking 1] zeroVec t) =
        Mode.Trajectory_Tracking ∧
      (cycle sampleParams sampleExt sampleInit
        (sampleInput [sampleCommand Mode.Trajectory_Tracking 1] zeroVec t)).time_trajectory = t := by
  have hd : dispatched sampleParams sampleInit
      (sampleInput [sampleCommand Mode.Trajectory_Tracking 1] zeroVec t) =
        Mode.Trajectory_Tracking := by
    rw [dispatched_eq, check_failsafe_sampleInit]
    simp
  refine ⟨hd, ?_⟩
  rw [(cycle_tracking sampleParams sampleExt _ _ hd).1, sampleInit_Command_Last_Mode,
    if_neg (by decide), sampleInput_cur_time, sampleInit_last_time, sub_zero, zero_add]
  exact (constrain_function2_cases t).2.2.2.2 h1 h2

/-- C25, as amended, on sample data: with `time_total` = 0.02 = 2 * 0.01, two
consecutive tracking iterations with time steps 0.01 reach the completion
condition. -/
theorem trajectory_clock_bounded_witness :
    ∃ t ∈ trace sampleParams sampleExt sampleInit
        ([sampleInput [sampleCommand Mode.Trajectory_Tracking 1] zeroVec 0.01] ++
          [sampleInput [] zeroVec 0.02]),
      t.time_trajectory ≥ sampleExt.time_total :=
  have e1 := sample_tracking_entry 0.01 (by norm_num) (by norm_num)
  have hlt : ¬ (cycle sampleParams sampleExt sampleInit
      (sampleInput [sampleCommand Mode.Trajectory_Tracking 1] zeroVec 0.01)).time_trajectory ≥
      sampleExt.time_total := by
    rw [e1.2]
    norm_num [sampleExt]
  have k := cycle_tracking sampleParams sampleExt _ _ e1.1
  have d2 : dispatched sampleParams
      (cycle sampleParams sampleExt sampleInit
        (sampleInput [sampleCommand Mode.Trajectory_Tracking 1] zeroVec 0.01))
      (sampleInput [] zeroVec 0.02) = Mode.Trajectory_Tracking := by
    rw [dispatched_eq, check_failsafe_sample_cycle _ _ _ _ (by norm_num [zeroVec]), k.2.1,
      if_neg hlt]
    simp [k.2.2.1, hlt]
  (trajectory_clock_bounded sampleParams sampleExt sampleInit
    [sampleInput [sampleCommand Mode.Trajectory_Tracking 1] zeroVec 0.01]
    (sampleInput [] zeroVec 0.02)
    (by simp)
    (by
      intro m hm
      simp only [List.singleton_append, modes, List.mem_cons, List.not_mem_nil, or_false] at hm
      rcases hm with hm | hm
      · rw [hm, e1.1]
      · rw [hm, d2])).2.2
    (Nat.ceil_le.mpr (by norm_num [sampleExt]))

/-- C25 as stated fails after a restart.  With `time_total` = 0.02, tracking
is entered with a time step of 0.02 and completes at once; a second tracking
command arrives and the next iteration, 0.01 s later, dispatches on
Trajectory_Tracking again.  After these two consecutive tracking iterations
the clock is 0.01, below 0.01 * 2. -/
theorem trajectory_clock_restart_below_bound :
    sampleInit.Command_Last.Mode ≠ Mode.Trajectory_Tracking ∧
      modes sampleParams sampleExt sampleInit
        [sampleInput [sampleCommand Mode.Trajectory_Tracking 1] zeroVec 0.02,
         sampleInput [sampleCommand Mode.Trajectory_Tracking 2] zeroVec 0.03] =
        [Mode.Trajectory_Tracking, Mode.Trajectory_Tracking] ∧
      (run sampleParams sampleExt sampleInit
        [sampleInput [sampleCommand Mode.Trajectory_Tracking 1] zeroVec 0.02,
         sampleInput [sampleCommand Mode.Trajectory_Tracking 2] zeroVec 0.03]).time_trajectory =
        0.01 ∧
      ¬ (0.01 * 2 ≤
        (run sampleParams sampleExt sampleInit
          [sampleInput [sampleCommand Mode.Trajectory_Tracking 1] zeroVec 0.02,
           sampleInput [sampleCommand Mode.Trajectory_Tracking 2] zeroVec 0.03]).time_trajectory) := by
  obtain ⟨d1, -, hl⟩ := sample_tracking_done
  have d2 : dispatched sampleParams
      (cycle sampleParams sampleExt sampleInit
        (sampleInput [sampleCommand Mode.Trajectory_Tracking 1] zeroVec 0.02))
      (sampleInput [sampleCommand Mode.Trajectory_Tracking 2] zeroVec 0.03) =
        Mode.Trajectory_Tracking := by
    rw [dispatched_eq, check_failsafe_sample_cycle _ _ _ _ (by norm_num [zeroVec]), hl]
    simp
  have ht : (run sampleParams sampleExt sampleInit
      [sampleInput [sampleCommand Mode.Trajectory_Tracking 1] zeroVec 0.02,
       sampleInput [sampleCommand Mode.Trajectory_Tracking 2] zeroVec 0.03]).time_trajectory =
      0.01 := by
    simp only [run]
    rw [(cycle_tracking sampleParams sampleExt _ _ d2).1, hl, if_neg (by decide),
      cycle_last_time, sampleInput_cur_time, sampleInput_cur_time]
    norm_num [constrain_function2]
  refine ⟨by simp, by simp only [modes, d1, d2], ht, ?_⟩
  rw [ht]
  norm_num

end Px4PosController
